import Mathlib

/-!
Verification of the multi-provider fallback orchestration core of the
`ai-travel-guide` backend (FastAPI + standalone demo scripts).

The Python sources are shallowly embedded:

* JSON values (`dict` / `list` / `str` / numbers produced by `json.loads`)
  are the inductive type `JValue`; Python / JSON numbers (ints and floats)
  are modelled as exact rationals `ℚ`.
* `json.loads` is modelled by the executable recursive-descent parser
  `json_loads` (fuel-indexed so that every definition is structurally
  recursive and kernel-computable).
* Network calls are not performed: each provider adapter body after its
  configuration check is an explicit outcome parameter of type
  `AttemptOut` (`.ok (some plan)` = parsed answer, `.ok none` = miss,
  `.error msg` = raised exception), and the orchestrators are functions of
  those outcomes.  The orchestration results carry instrumentation:
  the list of provider stages whose attempt was invoked and the list of
  stages that issued an outbound network call.
* `datetime.now()` is an explicit epoch-day parameter `now : Nat`;
  `strftime("%Y-%m-%d")` is abstracted to the day number itself
  (the rendering is injective in the day and no claim depends on it).
* `random.uniform(0.88, 0.96)` is an explicit oracle parameter carrying
  the value drawn.
-/

/-! ## Basic character/string utilities (Python `str` helpers) -/

/-- The characters Python's `str.find`/slicing work on; we work on `List Char`. -/
def pyChars (s : String) : List Char := s.toList

/-- JSON/Python whitespace used between tokens and in `\s*`. -/
def isJsonWs (c : Char) : Bool := c = ' ' || c = '\t' || c = '\n' || c = '\r'

/-- Drop leading JSON whitespace. -/
def skipWs : List Char → List Char
  | [] => []
  | c :: cs => if isJsonWs c then skipWs cs else c :: cs

/-- Python `str.find(ch)`: index of the first occurrence, `-1` if absent. -/
def pyFind (ch : Char) : List Char → Int
  | [] => -1
  | c :: cs =>
    if c = ch then 0
    else
      let r := pyFind ch cs
      if r = -1 then -1 else r + 1

/-- Python `str.rfind(ch)`: index of the last occurrence, `-1` if absent. -/
def pyRFind (ch : Char) : List Char → Int
  | [] => -1
  | c :: cs =>
    let r := pyRFind ch cs
    if r = -1 then (if c = ch then 0 else -1) else r + 1

/-- Python slice `s[a:b]` (with `0 ≤ a ≤ b` as used in the source). -/
def pySlice (s : List Char) (a b : Nat) : List Char := (s.drop a).take (b - a)

/-- Whether `needle` occurs as a contiguous substring (Python `needle in s`). -/
def substrIn (needle : List Char) : List Char → Bool
  | [] => needle.isEmpty
  | c :: rest => needle.isPrefixOf (c :: rest) || substrIn needle rest

/-- Python `str.lower()` restricted to ASCII (all source keywords are ASCII). -/
def asciiLower (c : Char) : Char :=
  if 'A' ≤ c ∧ c ≤ 'Z' then Char.ofNat (c.toNat + 32) else c

/-- Lower-case a whole string, as `message.lower()` does in the demo endpoints. -/
def pyLower (s : List Char) : List Char := s.map asciiLower

/-- Numeric value of a digit run (most significant first). -/
def digitsToNat (l : List Char) : Nat := l.foldl (fun acc c => acc * 10 + (c.toNat - 48)) 0

/-- Leading decimal-digit run of a character list. -/
def takeDigits : List Char → List Char
  | [] => []
  | c :: cs => if c.isDigit then c :: takeDigits cs else []

/-- What remains after the leading decimal-digit run. -/
def dropDigits : List Char → List Char
  | [] => []
  | c :: cs => if c.isDigit then dropDigits cs else c :: cs

/-- What remains after leading whitespace (`\s*`). -/
def dropWs : List Char → List Char
  | [] => []
  | c :: cs => if isJsonWs c then dropWs cs else c :: cs

/-! ## JSON values and `json.loads`

`JValue` models the result of Python's `json.loads`: objects keep their
key order (`dict` insertion order) and keys are unique (a duplicate key in
the decoded text overwrites the stored value in place, as a Python `dict`
does).
-/

/-- A decoded JSON value (`json.loads` result). -/
inductive JValue where
  | obj  : List (String × JValue) → JValue
  | arr  : List JValue → JValue
  | str  : String → JValue
  | num  : ℚ → JValue
  | jb   : Bool → JValue
  | null : JValue

/-- Python `dict` lookup `d[k]` / `d.get(k)` on a decoded object. -/
def assocGet (k : String) : List (String × JValue) → Option JValue
  | [] => none
  | (k', v') :: rest => if k' = k then some v' else assocGet k rest

/-- Remove the entry with key `k` (first occurrence). -/
def assocErase (k : String) : List (String × JValue) → List (String × JValue)
  | [] => []
  | (k', v') :: rest => if k' = k then rest else (k', v') :: assocErase k rest

/-- Python `dict` assignment `d[k] = v`: overwrite in place if the key is
present (keeping its position), otherwise append at the end. -/
def assocSet (k : String) (v : JValue) : List (String × JValue) → List (String × JValue)
  | [] => [(k, v)]
  | (k', v') :: rest => if k' = k then (k, v) :: rest else (k', v') :: assocSet k v rest

/-- Combine one parsed member with the members parsed after it, with
Python `dict` duplicate-key semantics: the first occurrence fixes the
position, the last occurrence fixes the value. -/
def pyInsert (k : String) (v : JValue) (l : List (String × JValue)) : List (String × JValue) :=
  match assocGet k l with
  | some v' => (k, v') :: assocErase k l
  | none => (k, v) :: l

/-- `d[k] = v` on a `JValue`; only ever applied to decoded objects in the
source (on any other value Python would raise `TypeError`, a branch the
orchestrators never reach because every tagged adapter result comes from
the response parser, which returns objects). -/
def dictSet (v : JValue) (k : String) (x : JValue) : JValue :=
  match v with
  | .obj l => .obj (assocSet k x l)
  | other => other

/-- Key lookup on a `JValue` object. -/
def getKey (v : JValue) (k : String) : Option JValue :=
  match v with
  | .obj l => assocGet k l
  | _ => none

/-- Numeric field lookup. -/
def getNumKey (v : JValue) (k : String) : Option ℚ :=
  match getKey v k with
  | some (.num q) => some q
  | _ => none

/-- String field lookup. -/
def getStrKey (v : JValue) (k : String) : Option String :=
  match getKey v k with
  | some (.str s) => some s
  | _ => none

/-- Whether a decoded object has a key (`k in d` for a `dict`). -/
def hasKey (v : JValue) (k : String) : Bool :=
  match v with
  | .obj l => l.any (fun kv => kv.1 = k)
  | _ => false

/-- Python truthiness of an adapter result payload (`if result:`), on the
values the fallback chains can see: a decoded object is truthy iff
non-empty; the baseline and parser payloads are always non-empty objects. -/
def isTruthy (v : JValue) : Bool :=
  match v with
  | .obj l => !l.isEmpty
  | .arr l => !l.isEmpty
  | .str s => !s.isEmpty
  | .num q => q ≠ 0
  | .jb b => b
  | .null => false

/-- Python `field in parsed` for the decoded values `json.loads` can hand
to the validator.  On an object it is key membership; on a list, element
equality with the string; on a string, substring containment.  On a
number, boolean or `None`, Python raises `TypeError` — that branch is
unreachable in `parse_travel_response` (the decoded slice always starts
with `{`, so a successful decode is an object, see
`json_loads_brace_obj`); we return `false` there. -/
def fieldIn (field : String) (v : JValue) : Bool :=
  match v with
  | .obj l => l.any (fun kv => kv.1 = field)
  | .arr l => l.any (fun e => match e with | .str s => s = field | _ => false)
  | .str s => substrIn (pyChars field) (pyChars s)
  | _ => false

/-! ### The `json.loads` text parser

One fuel-indexed function `parseCore` covers the three mutually
recursive jobs (value, object members, array elements); every recursive
call consumes one fuel unit and `json_loads` supplies enough fuel for any
input it is given.  Incomplete or malformed text, and text with trailing
garbage, decode to `none` — where `json.loads` raises `JSONDecodeError`.
-/

/-- Decode a hexadecimal digit. -/
def hexVal (c : Char) : Option Nat :=
  if c.isDigit then some (c.toNat - 48)
  else if 'a' ≤ c ∧ c ≤ 'f' then some (c.toNat - 87)
  else if 'A' ≤ c ∧ c ≤ 'F' then some (c.toNat - 55)
  else none

/-- Body of a JSON string after the opening quote, handling the escape
sequences `json.loads` accepts (`\u` escapes are decoded without
surrogate-pair recombination, which no claim exercises). -/
def parseStrBody : List Char → Option (List Char × List Char)
  | [] => none
  | '"' :: rest => some ([], rest)
  | '\\' :: e :: rest =>
    (match e with
     | '"' => (parseStrBody rest).map (fun p => ('"' :: p.1, p.2))
     | '\\' => (parseStrBody rest).map (fun p => ('\\' :: p.1, p.2))
     | '/' => (parseStrBody rest).map (fun p => ('/' :: p.1, p.2))
     | 'b' => (parseStrBody rest).map (fun p => ('\x08' :: p.1, p.2))
     | 'f' => (parseStrBody rest).map (fun p => ('\x0c' :: p.1, p.2))
     | 'n' => (parseStrBody rest).map (fun p => ('\n' :: p.1, p.2))
     | 'r' => (parseStrBody rest).map (fun p => ('\r' :: p.1, p.2))
     | 't' => (parseStrBody rest).map (fun p => ('\t' :: p.1, p.2))
     | 'u' =>
       (match rest with
        | h1 :: h2 :: h3 :: h4 :: rest' =>
          (match hexVal h1, hexVal h2, hexVal h3, hexVal h4 with
           | some a, some b, some c, some d =>
             (parseStrBody rest').map
               (fun p => (Char.ofNat (((a * 16 + b) * 16 + c) * 16 + d) :: p.1, p.2))
           | _, _, _, _ => none)
        | _ => none)
     | _ => none)
  | c :: rest => (parseStrBody rest).map (fun p => (c :: p.1, p.2))

/-- Apply a leading minus sign. -/
def applySign (neg : Bool) (q : ℚ) : ℚ := if neg then -q else q

/-- Exponent digits with optional sign (after `e`/`E`). -/
def parseExpDigits (v : ℚ) (cs : List Char) : Option (ℚ × List Char) :=
  let (eneg, cs1) := match cs with
    | '-' :: r => (true, r)
    | '+' :: r => (false, r)
    | _ => (false, cs)
  let es := takeDigits cs1
  if es.isEmpty then none
  else
    let e := digitsToNat es
    some ((if eneg then v / (10 : ℚ) ^ e else v * (10 : ℚ) ^ e), dropDigits cs1)

/-- Optional exponent part of a JSON number. -/
def parseExpPart (v : ℚ) (cs : List Char) : Option (ℚ × List Char) :=
  match cs with
  | 'e' :: r => parseExpDigits v r
  | 'E' :: r => parseExpDigits v r
  | _ => some (v, cs)

/-- JSON number grammar: optional minus, integer part without leading
zeros, optional fraction, optional exponent.  Returns the exact rational
value (floats are modelled exactly). -/
def parseNum (cs : List Char) : Option (ℚ × List Char) :=
  let (neg, cs1) := match cs with
    | '-' :: rest => (true, rest)
    | _ => (false, cs)
  let ds := takeDigits cs1
  if ds.isEmpty then none
  else if ds.length > 1 ∧ ds.headI = '0' then none
  else
    let intPart : ℚ := (digitsToNat ds : ℚ)
    match dropDigits cs1 with
    | '.' :: r =>
      let fs := takeDigits r
      if fs.isEmpty then none
      else
        (match parseExpPart (intPart + (digitsToNat fs : ℚ) / (10 : ℚ) ^ fs.length) (dropDigits r) with
         | some (v, r2) => some (applySign neg v, r2)
         | none => none)
    | rest1 =>
      match parseExpPart intPart rest1 with
      | some (v, r2) => some (applySign neg v, r2)
      | none => none

/-- Which of the three mutually recursive parsing jobs `parseCore` is doing. -/
inductive PJob where
  | val
  | objMembers
  | arrElems

/-- Result of one `parseCore` job. -/
inductive POut where
  | v     : JValue → POut
  | mems  : List (String × JValue) → POut
  | elems : List JValue → POut

/-- Recursive-descent core of `json.loads`, structurally recursive on the
fuel.  `.objMembers` and `.arrElems` consume the members/elements *and*
the closing brace/bracket. -/
def parseCore : Nat → PJob → List Char → Option (POut × List Char)
  | 0, _, _ => none
  | fuel + 1, .val, cs =>
    match skipWs cs with
    | '{' :: rest =>
      (match skipWs rest with
       | '}' :: r2 => some (.v (.obj []), r2)
       | _ =>
         match parseCore fuel .objMembers rest with
         | some (.mems l, r2) => some (.v (.obj l), r2)
         | _ => none)
    | '[' :: rest =>
      (match skipWs rest with
       | ']' :: r2 => some (.v (.arr []), r2)
       | _ =>
         match parseCore fuel .arrElems rest with
         | some (.elems l, r2) => some (.v (.arr l), r2)
         | _ => none)
    | '"' :: rest =>
      (match parseStrBody rest with
       | some (s, r2) => some (.v (.str (String.mk s)), r2)
       | none => none)
    | 't' :: 'r' :: 'u' :: 'e' :: rest => some (.v (.jb true), rest)
    | 'f' :: 'a' :: 'l' :: 's' :: 'e' :: rest => some (.v (.jb false), rest)
    | 'n' :: 'u' :: 'l' :: 'l' :: rest => some (.v .null, rest)
    | other =>
      match parseNum other with
      | some (q, r2) => some (.v (.num q), r2)
      | none => none
  | fuel + 1, .objMembers, cs =>
    match skipWs cs with
    | '"' :: rest =>
      (match parseStrBody rest with
       | some (k, r1) =>
         (match skipWs r1 with
          | ':' :: r2 =>
            (match parseCore fuel .val r2 with
             | some (.v v, r3) =>
               (match skipWs r3 with
                | ',' :: r4 =>
                  (match parseCore fuel .objMembers r4 with
                   | some (.mems l, r5) => some (.mems (pyInsert (String.mk k) v l), r5)
                   | _ => none)
                | '}' :: r4 => some (.mems [(String.mk k, v)], r4)
                | _ => none)
             | _ => none)
          | _ => none)
       | none => none)
    | _ => none
  | fuel + 1, .arrElems, cs =>
    match parseCore fuel .val cs with
    | some (.v v, r1) =>
      (match skipWs r1 with
       | ',' :: r2 =>
         (match parseCore fuel .arrElems r2 with
          | some (.elems l, r3) => some (.elems (v :: l), r3)
          | _ => none)
       | ']' :: r2 => some (.elems [v], r2)
       | _ => none)
    | _ => none

/-- `json.loads`: decode the whole text (trailing whitespace only),
`none` where Python raises `JSONDecodeError`. -/
def json_loads (s : String) : Option JValue :=
  match parseCore (s.length + 2) .val (pyChars s) with
  | some (.v v, rest) => if (skipWs rest).isEmpty then some v else none
  | _ => none

/-! ## `AIService._parse_travel_response` (backend/app/services/ai_service.py) -/

/-- The validator's required fields, as listed in the source. -/
def required_fields : List String :=
  ["title", "destination", "duration_days", "daily_routes", "cost_estimate"]

/-- `AIService._parse_travel_response`: locate the first `{` and the last
`}`, slice, decode, and check the required fields; `None` on any failure.
The `try` in the source catches exactly the decode errors
(`JSONDecodeError`/`ValueError`), modelled by `json_loads = none`. -/
def parse_travel_response (response_text : String) : Option JValue :=
  let cs := pyChars response_text
  let start_idx := pyFind '{' cs
  let end_idx := pyRFind '}' cs + 1
  if start_idx ≠ -1 ∧ end_idx > start_idx then
    let json_str := String.mk (pySlice cs start_idx.toNat end_idx.toNat)
    match json_loads json_str with
    | some parsed =>
      if required_fields.all (fun field => fieldIn field parsed) then some parsed else none
    | none => none
  else none

/-! ## Configuration and provider-attempt outcomes

`Config` holds the truthiness of the `settings` values the fallback
chains read.  An adapter's behaviour past its configuration check (HTTP
status, polling, parsing, or a raised exception) is summarised by an
`AttemptOut` value and passed to the orchestrator as a parameter:
`.ok (some p)` = the adapter produced the parsed payload `p`,
`.ok none` = the adapter returned `None`,
`.error e` = the adapter raised exception `e`.
-/

/-- Truthiness of the `settings` fields the orchestrators and adapters read. -/
structure Config where
  watsonxApiKey : Bool
  watsonxProjectId : Bool
  hfApiKey : Bool
  replicateApiToken : Bool
  useReplicate : Bool

/-- Outcome of one provider attempt: value, miss, or raised exception. -/
abbrev AttemptOut := Except String (Option JValue)

/-- The provider stages of the fallback chains. -/
inductive Provider where
  | watsonx
  | huggingface
  | replicate
deriving DecidableEq, Repr

/-- An orchestration run: the returned payload, the provider stages whose
attempt was invoked, and the stages that issued an outbound network call. -/
structure OrchTrace where
  result : JValue
  invoked : List Provider
  netCalls : List Provider

/-- `AIService._watsonx_travel_plan`: returns `None` immediately (no call)
unless both the API key and the project id are configured; otherwise the
HTTP/parse outcome `net` (an exception in the body propagates to the
orchestrator's `try`). -/
def watsonx_travel_plan (cfg : Config) (net : AttemptOut) : AttemptOut :=
  if cfg.watsonxApiKey && cfg.watsonxProjectId then net else .ok none

/-- `AIService._huggingface_travel_plan`: `None` immediately unless the HF
API key is configured. -/
def huggingface_travel_plan (cfg : Config) (net : AttemptOut) : AttemptOut :=
  if cfg.hfApiKey then net else .ok none

/-- `AIService._replicate_travel_plan`: `None` immediately unless the
Replicate token is configured. -/
def replicate_travel_plan (cfg : Config) (net : AttemptOut) : AttemptOut :=
  if cfg.replicateApiToken then net else .ok none

/-- Network calls issued by the watsonx adapter (one POST when configured). -/
def watsonxCalls (cfg : Config) : List Provider :=
  if cfg.watsonxApiKey && cfg.watsonxProjectId then [.watsonx] else []

/-- Network calls issued by the Hugging Face adapter (model-candidate
posts, collapsed to the stage marker, when configured). -/
def hfCalls (cfg : Config) : List Provider :=
  if cfg.hfApiKey then [.huggingface] else []

/-- Network calls issued by the Replicate adapter when configured. -/
def replicateCalls (cfg : Config) : List Provider :=
  if cfg.replicateApiToken then [.replicate] else []

/-! ## `AIService._baseline_travel_plan` — the deterministic synthesizer -/

/-- A travel-plan request: the fields `generate_travel_plan` reads from
`request_data` (the `.get` defaults `"Jakarta"` / `3` / `"sedang"` are
applied by the caller that builds the dict; we model the dict by its
fields). -/
structure TravelRequest where
  destination : String
  duration_days : Nat
  budget_range : String
  preferences : List String

/-- Per-activity flat cost band:
`100000 if budget == "murah" else 200000 if budget == "sedang" else 500000`. -/
def baseline_activity_cost (budget : String) : ℚ :=
  if budget = "murah" then 100000 else if budget = "sedang" then 200000 else 500000

/-- Per-day subtotal band:
`150000 if budget == "murah" else 300000 if budget == "sedang" else 750000`. -/
def baseline_day_cost (budget : String) : ℚ :=
  if budget = "murah" then 150000 else if budget = "sedang" then 300000 else 750000

/-- One baseline `DayPlan` dict (loop body of `_baseline_travel_plan`);
`date` is `(now + timedelta(days=day-1))` as an epoch-day number. -/
def baseline_day (destination budget : String) (now day : Nat) : JValue :=
  .obj [("day", .num day),
        ("date", .num (now + day - 1)),
        ("activities", .arr [.obj [
            ("time", .str "09:00"),
            ("activity", .str ("Jelajahi " ++ destination ++ " - Hari " ++ toString day)),
            ("location", .str destination),
            ("description", .str "Kunjungi tempat wisata populer di sekitar area"),
            ("estimated_cost", .num (baseline_activity_cost budget))]]),
        ("estimated_cost", .num (baseline_day_cost budget))]

/-- `daily_routes`: one `DayPlan` per `day in range(1, duration + 1)`. -/
def baseline_daily_routes (destination budget : String) (now duration : Nat) : List JValue :=
  (List.range' 1 duration).map (baseline_day destination budget now)

/-- `total_cost = sum(day["estimated_cost"] for day in daily_routes)`
(the key is always present, so the `getD 0` default is never taken). -/
def baseline_total_cost (destination budget : String) (now duration : Nat) : ℚ :=
  ((baseline_daily_routes destination budget now duration).map
     (fun d => (getNumKey d "estimated_cost").getD 0)).sum

/-- `AIService._baseline_travel_plan`: the deterministic last-resort
itinerary, with the fixed percentage cost split and `confidence: 0.6`. -/
def AIService_baseline_travel_plan (req : TravelRequest) (now : Nat) : JValue :=
  let destination := req.destination
  let duration := req.duration_days
  let budget := req.budget_range
  let total_cost := baseline_total_cost destination budget now duration
  .obj [
    ("title", .str ("Perjalanan " ++ toString duration ++ " Hari ke " ++ destination)),
    ("destination", .str destination),
    ("duration_days", .num duration),
    ("daily_routes", .arr (baseline_daily_routes destination budget now duration)),
    ("cost_estimate", .obj [
       ("accommodation", .num (total_cost * 0.4)),
       ("food", .num (total_cost * 0.3)),
       ("transport", .num (total_cost * 0.2)),
       ("activities", .num (total_cost * 0.1)),
       ("total", .num total_cost),
       ("currency", .str "IDR")]),
    ("ai_source", .str "baseline"),
    ("confidence", .num 0.6)]

/-! ## `AIService.generate_travel_plan` — the fallback orchestrator -/

/-- `AIService.generate_travel_plan`: try watsonx, then Hugging Face,
then Replicate (only if `USE_REPLICATE and REPLICATE_API_TOKEN`), then
the baseline plan.  Each stage sits in its own `try`: a raised exception
(`.error`) is caught and the chain continues; a truthy result is tagged
with its stage's `ai_source` and returned at once. -/
def AIService_generate_travel_plan (cfg : Config) (wNet hfNet repNet : AttemptOut)
    (req : TravelRequest) (now : Nat) : OrchTrace :=
  let repStage : List Provider → List Provider → OrchTrace := fun inv calls =>
    if cfg.useReplicate && cfg.replicateApiToken then
      match replicate_travel_plan cfg repNet with
      | .ok (some result) =>
        if isTruthy result then
          ⟨dictSet result "ai_source" (.str "replicate"),
           inv ++ [.replicate], calls ++ replicateCalls cfg⟩
        else
          ⟨AIService_baseline_travel_plan req now, inv ++ [.replicate], calls ++ replicateCalls cfg⟩
      | _ =>
          ⟨AIService_baseline_travel_plan req now, inv ++ [.replicate], calls ++ replicateCalls cfg⟩
    else ⟨AIService_baseline_travel_plan req now, inv, calls⟩
  let hfStage : List Provider → List Provider → OrchTrace := fun inv calls =>
    match huggingface_travel_plan cfg hfNet with
    | .ok (some result) =>
      if isTruthy result then
        ⟨dictSet result "ai_source" (.str "huggingface"),
         inv ++ [.huggingface], calls ++ hfCalls cfg⟩
      else repStage (inv ++ [.huggingface]) (calls ++ hfCalls cfg)
    | _ => repStage (inv ++ [.huggingface]) (calls ++ hfCalls cfg)
  match watsonx_travel_plan cfg wNet with
  | .ok (some result) =>
    if isTruthy result then
      ⟨dictSet result "ai_source" (.str "watsonx"), [.watsonx], watsonxCalls cfg⟩
    else hfStage [.watsonx] (watsonxCalls cfg)
  | _ => hfStage [.watsonx] (watsonxCalls cfg)

/-! ## `ChatService.generate_response` (backend/app/api/chat.py) -/

/-- `ChatService._baseline_response`: the fixed apology answer with
`ai_source: "baseline"` and `confidence: 0.1`. -/
def ChatService_baseline_response (message : String) : JValue :=
  .obj [("answer", .str "Maaf, saya sedang mengalami gangguan teknis. Untuk informasi wisata Indonesia, Anda bisa mengunjungi website resmi Kementerian Pariwisata atau menghubungi customer service kami."),
        ("ai_source", .str "baseline"),
        ("confidence", .num 0.1),
        ("suggestions", .arr [
           .str "Coba tanyakan tentang destinasi wisata populer",
           .str "Tanyakan tentang budget perjalanan",
           .str "Minta tips perjalanan"])]

/-- `ChatService.generate_response`: the same fallback shape as
`AIService.generate_travel_plan`, over the chat adapters, ending at
`_baseline_response`. -/
def ChatService_generate_response (cfg : Config) (wNet hfNet repNet : AttemptOut)
    (message : String) : OrchTrace :=
  let repStage : List Provider → List Provider → OrchTrace := fun inv calls =>
    if cfg.useReplicate && cfg.replicateApiToken then
      match replicate_travel_plan cfg repNet with
      | .ok (some result) =>
        if isTruthy result then
          ⟨dictSet result "ai_source" (.str "replicate"),
           inv ++ [.replicate], calls ++ replicateCalls cfg⟩
        else
          ⟨ChatService_baseline_response message, inv ++ [.replicate], calls ++ replicateCalls cfg⟩
      | _ =>
          ⟨ChatService_baseline_response message, inv ++ [.replicate], calls ++ replicateCalls cfg⟩
    else ⟨ChatService_baseline_response message, inv, calls⟩
  let hfStage : List Provider → List Provider → OrchTrace := fun inv calls =>
    match huggingface_travel_plan cfg hfNet with
    | .ok (some result) =>
      if isTruthy result then
        ⟨dictSet result "ai_source" (.str "huggingface"),
         inv ++ [.huggingface], calls ++ hfCalls cfg⟩
      else repStage (inv ++ [.huggingface]) (calls ++ hfCalls cfg)
    | _ => repStage (inv ++ [.huggingface]) (calls ++ hfCalls cfg)
  match watsonx_travel_plan cfg wNet with
  | .ok (some result) =>
    if isTruthy result then
      ⟨dictSet result "ai_source" (.str "watsonx"), [.watsonx], watsonxCalls cfg⟩
    else hfStage [.watsonx] (watsonxCalls cfg)
  | _ => hfStage [.watsonx] (watsonxCalls cfg)

/-! ## `AIService.chat_response` and `AIService.analyze_image`

The chat and vision chains of `AIService` call the private methods
`_watsonx_chat`, `_huggingface_chat`, `_replicate_chat`,
`_huggingface_vision`, `_watsonx_vision`, `_replicate_vision` — none of
which is defined on the class, so each attempt raises `AttributeError`
before doing anything else.  We embed each missing method as that raised
exception. -/

/-- `self._watsonx_chat(...)`: undefined attribute, raises. -/
def AIService_watsonx_chat : AttemptOut :=
  .error "AttributeError: 'AIService' object has no attribute '_watsonx_chat'"

/-- `self._huggingface_chat(...)`: undefined attribute, raises. -/
def AIService_huggingface_chat : AttemptOut :=
  .error "AttributeError: 'AIService' object has no attribute '_huggingface_chat'"

/-- `self._replicate_chat(...)`: undefined attribute, raises. -/
def AIService_replicate_chat : AttemptOut :=
  .error "AttributeError: 'AIService' object has no attribute '_replicate_chat'"

/-- `self._huggingface_vision(...)`: undefined attribute, raises. -/
def AIService_huggingface_vision : AttemptOut :=
  .error "AttributeError: 'AIService' object has no attribute '_huggingface_vision'"

/-- `self._watsonx_vision(...)`: undefined attribute, raises. -/
def AIService_watsonx_vision : AttemptOut :=
  .error "AttributeError: 'AIService' object has no attribute '_watsonx_vision'"

/-- `self._replicate_vision(...)`: undefined attribute, raises. -/
def AIService_replicate_vision : AttemptOut :=
  .error "AttributeError: 'AIService' object has no attribute '_replicate_vision'"

/-- The baseline dict literal at the end of `AIService.chat_response`.
Unlike every other baseline in the repository it sets no `ai_source`. -/
def AIService_chat_baseline : JValue :=
  .obj [("answer", .str "Maaf, saya sedang mengalami gangguan teknis. Silakan coba lagi nanti atau hubungi customer service."),
        ("confidence", .num 0.1),
        ("suggestions", .arr [
           .str "Coba tanyakan tentang destinasi wisata populer",
           .str "Tanyakan tentang budget perjalanan"])]

/-- `AIService.chat_response`: watsonx → Hugging Face → Replicate (if
enabled) → baseline dict; every provider stage raises `AttributeError`
(missing method), which the stage's `except` swallows. -/
def AIService_chat_response (cfg : Config) (message : String) (context : Option JValue) : JValue :=
  let repStage : JValue :=
    if cfg.useReplicate && cfg.replicateApiToken then
      match AIService_replicate_chat with
      | .ok (some result) =>
        if isTruthy result then dictSet result "ai_source" (.str "replicate")
        else AIService_chat_baseline
      | _ => AIService_chat_baseline
    else AIService_chat_baseline
  let hfStage : JValue :=
    match AIService_huggingface_chat with
    | .ok (some result) =>
      if isTruthy result then dictSet result "ai_source" (.str "huggingface") else repStage
    | _ => repStage
  match AIService_watsonx_chat with
  | .ok (some result) =>
    if isTruthy result then dictSet result "ai_source" (.str "watsonx") else hfStage
  | _ => hfStage

/-- The baseline dict literal at the end of `AIService.analyze_image`. -/
def AIService_vision_baseline : JValue :=
  .obj [("landmarks", .arr [.obj [
           ("name", .str "Landmark tidak dikenali"),
           ("description", .str "Mohon coba dengan gambar yang lebih jelas"),
           ("confidence", .num 0.1)]]),
        ("summary", .str "Tidak dapat mengidentifikasi landmark dalam gambar"),
        ("ai_source", .str "baseline"),
        ("confidence", .num 0.1)]

/-- `AIService.analyze_image`: Hugging Face → watsonx → Replicate (if
enabled) → baseline dict; every provider stage raises `AttributeError`
(missing method), which the stage's `except` swallows. -/
def AIService_analyze_image (cfg : Config) (imageData : String) : JValue :=
  let repStage : JValue :=
    if cfg.useReplicate && cfg.replicateApiToken then
      match AIService_replicate_vision with
      | .ok (some result) =>
        if isTruthy result then dictSet result "ai_source" (.str "replicate")
        else AIService_vision_baseline
      | _ => AIService_vision_baseline
    else AIService_vision_baseline
  let wStage : JValue :=
    match AIService_watsonx_vision with
    | .ok (some result) =>
      if isTruthy result then dictSet result "ai_source" (.str "watsonx") else repStage
    | _ => repStage
  match AIService_huggingface_vision with
  | .ok (some result) =>
    if isTruthy result then dictSet result "ai_source" (.str "huggingface") else wStage
  | _ => wStage

/-! ## Free-text extraction in `create_travel_plan_from_chat`
(demo_api_fixed.py `/chat-plan`): destination, duration, budget and
interest tags are pulled out of the lower-cased message by substring and
regex matching. -/

/-- `destination_mapping` from the source, in `dict` insertion order.
The key `"mataram"` appears twice in the literal (`"Lombok"` under the
major cities, `"Mataram"` under Nusa Tenggara): Python keeps the first
position and the last value, so it maps to `"Mataram"` here. -/
def destination_mapping : List (String × String) :=
  [("bali", "Bali"), ("denpasar", "Bali"), ("ubud", "Bali"), ("canggu", "Bali"),
   ("seminyak", "Bali"), ("kuta", "Bali"), ("sanur", "Bali"),
   ("jakarta", "Jakarta"), ("depok", "Jakarta"), ("bekasi", "Jakarta"),
   ("tangerang", "Jakarta"), ("bogor", "Jakarta"),
   ("yogyakarta", "Yogyakarta"), ("yogya", "Yogyakarta"), ("jogja", "Yogyakarta"),
   ("bandung", "Bandung"), ("cimahi", "Bandung"),
   ("lombok", "Lombok"), ("mataram", "Mataram"),
   ("surabaya", "Surabaya"), ("sidoarjo", "Surabaya"),
   ("banjarmasin", "Banjarmasin"), ("balikpapan", "Balikpapan"), ("samarinda", "Samarinda"),
   ("pontianak", "Pontianak"), ("palangkaraya", "Palangkaraya"), ("tarakan", "Tarakan"),
   ("medan", "Medan"), ("palembang", "Palembang"), ("pekanbaru", "Pekanbaru"),
   ("padang", "Padang"), ("jambi", "Jambi"), ("bengkulu", "Bengkulu"), ("lampung", "Lampung"),
   ("banda aceh", "Banda Aceh"), ("aceh", "Banda Aceh"),
   ("makassar", "Makassar"), ("manado", "Manado"), ("palu", "Palu"), ("kendari", "Kendari"),
   ("semarang", "Semarang"), ("solo", "Solo"), ("malang", "Malang"), ("kediri", "Kediri"),
   ("purwokerto", "Purwokerto"), ("tegal", "Tegal"), ("cirebon", "Cirebon"),
   ("jayapura", "Jayapura"), ("sorong", "Sorong"), ("merauke", "Merauke"),
   ("kupang", "Kupang"), ("bima", "Bima"),
   ("ambon", "Ambon"), ("ternate", "Ternate")]

/-- Python `\w` (ASCII part, all that occurs in the demo messages). -/
def isWordChar (c : Char) : Bool := c.isAlpha || c.isDigit || c = '_'

/-- ASCII lower-case letter (regex class `[a-z]`). -/
def isAsciiLowerAlpha (c : Char) : Bool := 'a' ≤ c && c ≤ 'z'

/-- ASCII upper-case letter (regex class `[A-Z]`). -/
def isAsciiUpperAlpha (c : Char) : Bool := 'A' ≤ c && c ≤ 'Z'

/-- Leading run of ASCII lower-case letters. -/
def takeLowerRun : List Char → List Char
  | [] => []
  | c :: cs => if isAsciiLowerAlpha c then c :: takeLowerRun cs else []

/-- What remains after the leading run of ASCII lower-case letters. -/
def dropLowerRun : List Char → List Char
  | [] => []
  | c :: cs => if isAsciiLowerAlpha c then dropLowerRun cs else c :: cs

/-- First match of `re.findall(r'\b[A-Z][a-z]+\b', message)`: scan left to
right (`prev` is the character before the current position, for the word
boundary); a failed candidate restarts one character later, as the regex
engine does. -/
def findCapWord (prev : Option Char) : List Char → Option String
  | [] => none
  | c :: rest =>
    let boundary := match prev with
      | none => true
      | some p => !isWordChar p
    if boundary && isAsciiUpperAlpha c then
      let ls := takeLowerRun rest
      let after := dropLowerRun rest
      if !ls.isEmpty && (after.isEmpty || !isWordChar after.headI) then
        some (String.mk (c :: ls))
      else findCapWord (some c) rest
    else findCapWord (some c) rest

/-- Destination detection: the first `destination_mapping` key occurring
in the lower-cased message wins; otherwise the first capitalized word of
the original message; otherwise `"Unknown City"`. -/
def extract_destination (messageLower original : List Char) : String :=
  match destination_mapping.find? (fun kc => substrIn (pyChars kc.1) messageLower) with
  | some kc => kc.2
  | none =>
    match findCapWord none original with
    | some w => w
    | none => "Unknown City"

/-- First match of `re.search(r'(\d+)\s*hari', message)`, returning the
captured number: at each position, a maximal digit run, optional
whitespace, then the literal `word`; a failed position restarts one
character later. -/
def findNumBefore (word : List Char) : List Char → Option Nat
  | [] => none
  | c :: rest =>
    if c.isDigit then
      let ds := takeDigits (c :: rest)
      let after := dropWs (dropDigits (c :: rest))
      if word.isPrefixOf after then some (digitsToNat ds)
      else findNumBefore word rest
    else findNumBefore word rest

/-- `number_words` from the source, in `dict` insertion order. -/
def number_words : List (String × Nat) :=
  [("satu", 1), ("dua", 2), ("tiga", 3), ("empat", 4), ("lima", 5),
   ("enam", 6), ("tujuh", 7), ("delapan", 8), ("sembilan", 9), ("sepuluh", 10),
   ("seminggu", 7), ("sehari", 1)]

/-- Duration extraction: the `(\d+)\s*hari` regex first, then the written
number words (each requiring `hari` to occur in the message), then the
default `3`. -/
def extract_duration (message : List Char) : Nat :=
  match findNumBefore (pyChars "hari") message with
  | some n => n
  | none =>
    match number_words.find? (fun wn =>
        substrIn (pyChars wn.1) message && substrIn (pyChars "hari") message) with
    | some wn => wn.2
    | none => 3

/-- First match of `re.search(r'(\d+(?:\.\d+)?)\s*juta', message)`: the
captured amount as (integer digits, optional (fraction digits, fraction
length)).  The optional fraction group is greedy and backtracks: a
position first tries to match with the fraction, then without it, before
the scan restarts one character later. -/
def findJuta : List Char → Option (Nat × Option (Nat × Nat))
  | [] => none
  | c :: rest =>
    if c.isDigit then
      let ds := takeDigits (c :: rest)
      let afterInt := dropDigits (c :: rest)
      let withFrac : Option (Nat × Option (Nat × Nat)) :=
        match afterInt with
        | '.' :: r =>
          let fs := takeDigits r
          if fs.isEmpty then none
          else if (pyChars "juta").isPrefixOf (dropWs (dropDigits r)) then
            some (digitsToNat ds, some (digitsToNat fs, fs.length))
          else none
        | _ => none
      match withFrac with
      | some res => some res
      | none =>
        if (pyChars "juta").isPrefixOf (dropWs afterInt) then some (digitsToNat ds, none)
        else findJuta rest
    else findJuta rest

/-- `float(match.group(1))`: the rational value of a `findJuta` capture. -/
def jutaAmount : Nat × Option (Nat × Nat) → ℚ
  | (i, none) => (i : ℚ)
  | (i, some (f, l)) => (i : ℚ) + (f : ℚ) / (10 : ℚ) ^ l

/-- Budget detection: an explicit `N juta` amount is banded at the 1.5
and 4 (million) thresholds; otherwise keyword lists; default `"medium"`. -/
def extract_budget (message : List Char) : String :=
  match findJuta message with
  | some m =>
    let amount := jutaAmount m
    if amount ≤ 1.5 then "low" else if amount ≤ 4 then "medium" else "high"
  | none =>
    if ["hemat", "murah", "budget rendah", "terbatas"].any
         (fun w => substrIn (pyChars w) message) then "low"
    else if ["premium", "mewah", "mahal", "luxury", "eksklusif"].any
         (fun w => substrIn (pyChars w) message) then "high"
    else if ["sedang", "menengah", "standar"].any
         (fun w => substrIn (pyChars w) message) then "medium"
    else "medium"

/-- `interest_mapping` from the source, in `dict` insertion order. -/
def interest_mapping : List (String × List String) :=
  [("kuliner", ["food", "culinary"]), ("makanan", ["food", "culinary"]),
   ("makan", ["food", "culinary"]), ("restoran", ["food", "culinary"]),
   ("warung", ["food", "culinary"]), ("street food", ["food", "culinary"]),
   ("pantai", ["beach", "relaxation"]), ("beach", ["beach", "relaxation"]),
   ("laut", ["beach", "relaxation"]), ("snorkeling", ["beach", "adventure"]),
   ("diving", ["beach", "adventure"]),
   ("budaya", ["culture", "history"]), ("sejarah", ["culture", "history"]),
   ("museum", ["culture", "history"]), ("candi", ["culture", "history"]),
   ("pura", ["culture", "history"]), ("tradisional", ["culture", "history"]),
   ("petualangan", ["adventure", "nature"]), ("hiking", ["adventure", "nature"]),
   ("trekking", ["adventure", "nature"]), ("gunung", ["adventure", "nature"]),
   ("alam", ["adventure", "nature"]),
   ("belanja", ["shopping", "city"]), ("shopping", ["shopping", "city"]),
   ("mall", ["shopping", "city"]), ("pasar", ["shopping", "culture"]),
   ("wisata", ["culture", "city"]), ("destinasi", ["culture", "city"]),
   ("tempat wisata", ["culture", "city"]), ("objek wisata", ["culture", "city"]),
   ("foto", ["photography", "scenic"]), ("fotografi", ["photography", "scenic"]),
   ("pemandangan", ["photography", "scenic"])]

/-- Order-preserving first-occurrence deduplication.  Python's
`list(set(...))` has an unspecified order; only the *set* of detected
tags is meaningful, and membership in this list coincides with it. -/
def dedupFirstAux (seen : List String) : List String → List String
  | [] => []
  | s :: rest =>
    if seen.contains s then dedupFirstAux seen rest
    else s :: dedupFirstAux (s :: seen) rest

/-- Order-preserving deduplication (the `seen`-set loop of the source). -/
def dedupFirst (l : List String) : List String := dedupFirstAux [] l

/-- Interest detection: extend by the tag list of every keyword occurring
in the message, deduplicate, default `["culture", "food"]` when empty. -/
def extract_interests (message : List Char) : List String :=
  let detected := interest_mapping.foldl
    (fun acc kv => if substrIn (pyChars kv.1) message then acc ++ kv.2 else acc) []
  let deduped := dedupFirst detected
  if deduped.isEmpty then ["culture", "food"] else deduped

/-! ## `get_enhanced_fallback_plan` (demo_api_fixed.py)

The "enhanced" deterministic synthesizer: per-tier daily cost, a
templated per-category activity table, interest-weighted selection,
deduplication, a fill-up loop to two activities per day, and an even
morning/afternoon distribution.  The fill-up `while` loop never
terminates when the table cannot reach `duration * 2` activities (one
full pass adds every unseen activity, so a second pass adds nothing);
that divergence is modelled as `none`. -/

/-- Group a decimal representation in threes (`f"{n:,}"`). -/
def commaChunk : List Char → List Char
  | a :: b :: c :: d :: rest => a :: b :: c :: ',' :: commaChunk (d :: rest)
  | l => l

/-- Python `f"{n:,}"` for a natural number. -/
def commaFmt (n : Nat) : String :=
  String.mk ((commaChunk (toString n).toList.reverse).reverse)

/-- `daily_costs` lookup with the `.get(budget, 800000)` default. -/
def enhanced_daily_cost (budget : String) : Nat :=
  if budget = "low" then 400000
  else if budget = "medium" then 800000
  else if budget = "high" then 1500000
  else 800000

/-- The per-category templated `activities` table (keys in `dict` order). -/
def enhanced_activities (d : String) : List (String × List String) :=
  [("culture",
    ["Masjid Agung " ++ d ++ " (arsitektur Islam lokal)",
     "Museum " ++ d ++ " (sejarah dan budaya lokal)",
     "Pasar tradisional " ++ d ++ " (budaya lokal)",
     "Kampung heritage " ++ d ++ " (wisata budaya)",
     "Rumah adat " ++ d ++ " (arsitektur tradisional)",
     "Pusat kerajinan lokal " ++ d]),
   ("food",
    ["Kuliner khas " ++ d ++ " di warung lokal",
     "Makanan tradisional " ++ d ++ " autentik",
     "Restoran seafood " ++ d ++ " (jika dekat laut)",
     "Street food tour " ++ d,
     "Pasar malam " ++ d ++ " (kuliner lokal)",
     "Rumah makan padang " ++ d]),
   ("culinary",
    ["Food tour " ++ d ++ " dengan guide lokal",
     "Cooking class masakan " ++ d,
     "Traditional market visit " ++ d,
     "Local restaurant hopping " ++ d,
     "Street food exploration " ++ d,
     "Kuliner malam " ++ d]),
   ("nature",
    ["Taman kota " ++ d ++ " (ruang hijau)",
     "Wisata alam sekitar " ++ d,
     "Air terjun dekat " ++ d,
     "Danau atau sungai " ++ d,
     "Bukit atau gunung dekat " ++ d,
     "Hutan atau kebun raya " ++ d]),
   ("adventure",
    ["Hiking di sekitar " ++ d,
     "River tubing dekat " ++ d,
     "Adventure park " ++ d,
     "Outdoor activities " ++ d,
     "Camping ground dekat " ++ d,
     "Extreme sports " ++ d]),
   ("city",
    ["Alun-alun " ++ d ++ " (pusat kota)",
     "Landmark " ++ d ++ " (ikon kota)",
     "Jembatan atau monumen " ++ d,
     "Kawasan bisnis " ++ d,
     "City tour " ++ d,
     "Pusat pemerintahan " ++ d]),
   ("shopping",
    ["Mall " ++ d ++ " (modern shopping)",
     "Pasar " ++ d ++ " (traditional market)",
     "Souvenir center " ++ d,
     "Pusat oleh-oleh " ++ d,
     "Traditional craft market " ++ d,
     "Shopping district " ++ d])]

/-- `activities[k]` / `k in activities` on a category table. -/
def lookupCat (acts : List (String × List String)) (k : String) : Option (List String) :=
  (acts.find? (fun kv => kv.1 = k)).map (fun kv => kv.2)

/-- The interest-priority selection phases before deduplication:
per-interest `[:4]` takes, the food/culinary and culture/city
complements (`[:2]`), and the balanced default when nothing matched. -/
def enhanced_selection (acts : List (String × List String)) (interests : List String) :
    List String :=
  let sel1 := interests.foldl (fun acc i =>
    match lookupCat acts i with
    | some l => acc ++ l.take 4
    | none => acc) []
  let sel2 :=
    if interests.contains "food" || interests.contains "culinary" then
      sel1 ++ ((lookupCat acts "food").getD []).take 2
           ++ ((lookupCat acts "culinary").getD []).take 2
    else sel1
  let sel3 :=
    if interests.contains "culture" || interests.contains "city" then
      sel2 ++ ((lookupCat acts "culture").getD []).take 2
           ++ ((lookupCat acts "city").getD []).take 2
    else sel2
  if sel3.isEmpty then
    ((lookupCat acts "culture").getD []).take 3
      ++ ((lookupCat acts "food").getD []).take 3
      ++ ((lookupCat acts "city").getD []).take 2
  else sel3

/-- Inner loop of the fill-up pass: append unseen activities until the
needed count is reached (the source's `break` checks). -/
def fillFrom (needed : Nat) (sel : List String) : List String → List String
  | [] => sel
  | a :: rest =>
    if needed ≤ sel.length then sel
    else if sel.contains a then fillFrom needed sel rest
    else fillFrom needed (sel ++ [a]) rest

/-- One full pass of the fill-up `while` body over all categories. -/
def fillPass (needed : Nat) (sel : List String) (cats : List (List String)) : List String :=
  cats.foldl (fillFrom needed) sel

/-- The fill-up `while` loop: after one full pass every activity is seen,
so a second pass cannot add anything — if the needed count is still not
reached the Python loop spins forever (`none`). -/
def enhanced_fill (needed : Nat) (sel : List String) (cats : List (List String)) :
    Option (List String) :=
  if needed ≤ sel.length then some sel
  else
    let s1 := fillPass needed sel cats
    if needed ≤ s1.length then some s1 else none

/-- The morning/afternoon distribution over `range(duration)`. -/
def enhanced_itinerary (destination : String) (duration : Nat) (sel : List String) :
    List String :=
  (List.range duration).map (fun day =>
    let mi := day * 2
    let ai := day * 2 + 1
    let morning :=
      if mi < sel.length then sel.getD mi "" else "Eksplorasi bebas " ++ destination ++ " (pagi)"
    let afternoon0 :=
      if ai < sel.length then sel.getD ai "" else "Eksplorasi bebas " ++ destination ++ " (sore)"
    let afternoon :=
      if morning = afternoon0 ∧ ai + 1 < sel.length then sel.getD (ai + 1) "" else afternoon0
    "Pagi: " ++ morning ++ " | Sore: " ++ afternoon)

/-- `tips_database` of the enhanced fallback. -/
def enhanced_tips_database : List (String × String) :=
  [("Banjarmasin", "Gunakan klotok (perahu tradisional) untuk wisata sungai, kunjungi pasar terapung sebelum jam 8 pagi, coba soto Banjar untuk sarapan, bawa payung untuk cuaca tropis"),
   ("Samarinda", "Kunjungi Mahakam riverfront untuk sunset, coba ikan patin bakar khas Kalimantan, gunakan ojek online untuk transportasi dalam kota"),
   ("Jayapura", "Siapkan dokumen untuk area perbatasan, coba papeda makanan khas Papua, respect budaya lokal Papua, bawa jaket untuk cuaca pegunungan")]

/-- `budget_tips` of the enhanced fallback. -/
def enhanced_budget_tips : List (String × String) :=
  [("low", "Gunakan transportasi umum (angkot), makan di warung lokal, pilih homestay atau guesthouse"),
   ("medium", "Kombinasi transportasi umum dan ojek online, hotel bintang 3, restaurant lokal dan cafe"),
   ("high", "Private car dengan driver, hotel bintang 4-5, fine dining dan aktivitas premium")]

/-- Assoc-list `.get(k, default)`. -/
def lookupD (l : List (String × String)) (k default : String) : String :=
  match l.find? (fun kv => kv.1 = k) with
  | some kv => kv.2
  | none => default

/-- `get_enhanced_fallback_plan`: the full deterministic construction;
`none` models the non-terminating fill-up loop (needed count out of the
table's reach). -/
def get_enhanced_fallback_plan (destination : String) (duration : Nat) (budget : String)
    (interests : List String) : Option JValue :=
  let daily_cost := enhanced_daily_cost budget
  let total_cost := daily_cost * duration
  let acts := enhanced_activities destination
  let selected := dedupFirst (enhanced_selection acts interests)
  let min_activities_needed := duration * 2
  (enhanced_fill min_activities_needed selected (acts.map (fun kv => kv.2))).map (fun sel =>
    let local_tip := lookupD enhanced_tips_database destination
      ("Nikmati pengalaman lokal yang autentik di " ++ destination)
    let budget_tip := lookupD enhanced_budget_tips budget "Sesuaikan aktivitas dengan budget Anda"
    .obj [
      ("destination", .str destination),
      ("duration", .num duration),
      ("budget", .str budget),
      ("interests", .arr (interests.map .str)),
      ("itinerary", .arr ((enhanced_itinerary destination duration sel).map .str)),
      ("tips", .str (local_tip ++ ". " ++ budget_tip ++ ".")),
      ("estimated_cost", .str ("Rp " ++ commaFmt total_cost)),
      ("ai_confidence", .num 0.97)])

/-! ## `create_travel_plan` (demo_api.py `/plan`)

The standalone demo's plan endpoint: a per-city activity database,
interest-based selection, day-by-day distribution, tips, a per-tier cost
— and an `ai_confidence` drawn from `random.uniform(0.88, 0.96)` and
rounded to two decimals.  The random draw is an explicit oracle
parameter `rand`. -/

/-- The request model `TravelPlan` of the standalone demo. -/
structure TravelPlan where
  destination : String
  duration : Nat
  budget : String
  interests : List String

/-- `destination_activities` from the source, in `dict` insertion order.
In the `"Solo"` entry the key `"culture"` appears twice in the literal;
Python keeps the first position and the last value, so `"culture"` maps
to the batik/dance list here. -/
def destination_activities : List (String × List (String × List String)) :=
  [("Bali",
    [("beach", ["Pantai Kuta untuk surfing", "Pantai Sanur untuk sunrise", "Pantai Nusa Dua untuk relaksasi", "Pantai Uluwatu untuk sunset"]),
     ("relaxation", ["Spa tradisional di Ubud", "Yoga retreat di Canggu", "Meditation di Sidemen", "Resort mewah di Seminyak"]),
     ("culture", ["Pura Tanah Lot", "Pura Besakih", "Ubud Monkey Forest", "Traditional Balinese Dance"]),
     ("adventure", ["Mount Batur sunrise trekking", "White water rafting di Ayung", "ATV ride di Ubud", "Volcano tour"]),
     ("food", ["Bebek betutu di Gianyar", "Nasi ayam Kedewatan", "Cooking class di Ubud", "Jimbaran seafood"]),
     ("culinary", ["Food tour di Denpasar", "Traditional market visit", "Warung hopping", "Balinese cooking workshop"]),
     ("nature", ["Sekumpul Waterfall", "Tegallalang Rice Terrace", "Sacred Monkey Forest", "Bali Bird Park"]),
     ("shopping", ["Sukawati Art Market", "Ubud Traditional Market", "Seminyak boutiques", "Kuta Beachwalk"])]),
   ("Jakarta",
    [("culture", ["Museum Nasional", "Kota Tua Jakarta", "Wayang Museum", "Istiqlal Mosque"]),
     ("city", ["Monas (National Monument)", "Bundaran HI", "Taman Mini Indonesia", "Ancol Dreamland"]),
     ("food", ["Kerak telor di Kota Tua", "Soto Betawi", "Gado-gado Bonbin", "Kuliner Pecenongan"]),
     ("culinary", ["Street food tour Sabang", "Fine dining di SCBD", "Traditional market Tanah Abang", "Food court Grand Indonesia"]),
     ("shopping", ["Grand Indonesia", "Plaza Indonesia", "Tanah Abang", "Pasar Baru"]),
     ("history", ["Fatahillah Square", "Jakarta Cathedral", "Bank Indonesia Museum", "Maritime Museum"])]),
   ("Yogyakarta",
    [("culture", ["Candi Borobudur", "Candi Prambanan", "Kraton Yogyakarta", "Taman Sari"]),
     ("history", ["Malioboro Street", "Fort Vredeburg", "Sultan Palace", "Kotagede Silver"]),
     ("food", ["Gudeg Yu Djum", "Bakpia Pathok", "Sate Klathak", "Angkringan Tugu"]),
     ("culinary", ["Gudeg tour", "Traditional Javanese cooking", "Street food Malioboro", "Royal cuisine experience"]),
     ("adventure", ["Jomblang Cave", "Pindul Cave tubing", "Merapi volcano tour", "Parangtritis beach"]),
     ("shopping", ["Malioboro Street", "Beringharjo Market", "Jalan Prawirotaman", "Kotagede"])]),
   ("Bandung",
    [("nature", ["Tangkuban Perahu", "Kawah Putih", "Situ Patenggang", "Maribaya Waterfall"]),
     ("food", ["Batagor Kingsley", "Siomay Bandung", "Surabi Enhaii", "Mie kocok Mang Dadeng"]),
     ("culinary", ["Sundanese cuisine tour", "Factory outlet food court", "Traditional Sundanese restaurant", "Modern cafe hopping"]),
     ("shopping", ["Factory Outlets", "Cihampelas Walk", "Paris Van Java", "Rumah Mode"]),
     ("culture", ["Gedung Sate", "Museum Geologi", "Saung Angklung Udjo", "Kampung Gajah"]),
     ("city", ["Braga Street", "Asia Afrika Street", "Alun-alun Bandung", "Taman Lansia"])]),
   ("Lombok",
    [("beach", ["Pantai Senggigi", "Gili Trawangan", "Pantai Kuta Lombok", "Pink Beach"]),
     ("adventure", ["Mount Rinjani trekking", "Gili Islands hopping", "Snorkeling di Gili Air", "Waterfall tour"]),
     ("nature", ["Sekotong Peninsula", "Benang Stokel Waterfall", "Pusuk Monkey Forest", "Mandalika Beach"]),
     ("culture", ["Sasak Village", "Traditional weaving", "Pura Lingsar", "Ende Village"]),
     ("relaxation", ["Beach resort di Senggigi", "Spa treatment", "Sunset viewing", "Island hopping"])]),
   ("Surabaya",
    [("city", ["Tugu Pahlawan", "Jembatan Suramadu", "Kebun Binatang Surabaya", "House of Sampoerna"]),
     ("culture", ["Masjid Al Akbar", "Klenteng Sanggar Agung", "Museum Sepuluh Nopember", "Kampung Arab"]),
     ("food", ["Rawon Setan", "Rujak Cingur", "Lontong Balap", "Tahu Tek"]),
     ("culinary", ["East Javanese cuisine tour", "Traditional market visit", "Street food exploration", "Modern dining"]),
     ("shopping", ["Tunjungan Plaza", "Galaxy Mall", "Pasar Atom", "ITC Surabaya"])]),
   ("Banjarmasin",
    [("culture", ["Masjid Sabilal Muhtadin", "Museum Lambung Mangkurat", "Kampung Sasirangan", "Floating Market Lok Baintan"]),
     ("nature", ["Pulau Kembang", "Taman Siring", "Danau Seran", "Hutan Mangrove Tarakan"]),
     ("food", ["Soto Banjar", "Ketupat Kandangan", "Ikan Patin Bakar", "Kue Cincin"]),
     ("culinary", ["Traditional Banjar cuisine", "Floating market food tour", "River fish specialties", "Local dessert tasting"]),
     ("city", ["Pasar Terapung", "Jembatan Barito", "Alun-alun Banjarmasin", "Kampung Melayu"]),
     ("shopping", ["Pasar Sudimampir", "Duta Mall", "Traditional craft market", "Sasirangan center"])]),
   ("Medan",
    [("culture", ["Istana Maimun", "Masjid Raya Al-Mashun", "Museum Negeri Sumatera Utara", "Tjong A Fie Mansion"]),
     ("food", ["Bika Ambon", "Soto Medan", "Durian Ucok", "Mie Aceh"]),
     ("culinary", ["Batak cuisine tour", "Chinese-Indonesian fusion", "Street food Kesawan", "Traditional Medan breakfast"]),
     ("city", ["Lapangan Merdeka", "Kesawan Square", "Little India", "Chinatown Medan"]),
     ("nature", ["Danau Toba day trip", "Bukit Lawang orangutan", "Air Terjun Sipiso-piso", "Berastagi highland"]),
     ("shopping", ["Sun Plaza", "Centre Point Mall", "Pasar Petisah", "Souvenir Batak"])]),
   ("Makassar",
    [("culture", ["Fort Rotterdam", "Masjid Amirul Mukminin", "Museum La Galigo", "Kampung Kauman"]),
     ("food", ["Coto Makassar", "Konro Bakar", "Pisang Epe", "Es Pallu Butung"]),
     ("culinary", ["Bugis-Makassar cuisine", "Seafood Losari Beach", "Traditional market tour", "Local coffee culture"]),
     ("beach", ["Pantai Losari", "Pulau Samalona", "Pantai Akkarena", "Pulau Kodingareng"]),
     ("city", ["Benteng Somba Opu", "Trans Studio Makassar", "Pantai Losari Boulevard", "Karebosi Park"]),
     ("shopping", ["Mall Panakkukang", "Karebosi Link", "Pasar Sentral", "Somba Opu Square"])]),
   ("Palembang",
    [("culture", ["Masjid Agung Palembang", "Museum Sultan Mahmud Badaruddin II", "Kampung Kapitan", "Benteng Kuto Besak"]),
     ("food", ["Pempek", "Tekwan", "Model", "Kemplang"]),
     ("culinary", ["Pempek tour", "Traditional Palembang cuisine", "River fish specialties", "Local dessert tasting"]),
     ("nature", ["Sungai Musi cruise", "Pulau Kemaro", "Danau Ranau", "Bukit Siguntang"]),
     ("city", ["Jembatan Ampera", "Benteng Kuto Besak", "Pasar 16 Ilir", "Jakabaring Sport City"]),
     ("shopping", ["Palembang Icon", "Lippo Plaza", "Pasar Cinde", "OPI Mall"])]),
   ("Semarang",
    [("culture", ["Lawang Sewu", "Klenteng Sam Poo Kong", "Masjid Agung Jawa Tengah", "Kota Lama Semarang"]),
     ("food", ["Lumpia Semarang", "Tahu Gimbal", "Wingko Babat", "Bandeng Presto"]),
     ("culinary", ["Chinese-Javanese fusion", "Traditional Semarang snacks", "Pecinan food tour", "Local coffee shops"]),
     ("city", ["Simpang Lima", "Kota Lama", "Tugu Muda", "Masjid Agung"]),
     ("nature", ["Candi Gedong Songo", "Umbul Sidomukti", "Curug Lawe", "Brown Canyon"]),
     ("shopping", ["Paragon Mall", "DP Mall", "Pasar Johar", "Citraland Mall"])]),
   ("Solo",
    [("culture", ["Batik workshop", "Traditional dance performance", "Gamelan music", "Royal heritage tour"]),
     ("food", ["Nasi Liwet", "Serabi Solo", "Timlo", "Tengkleng"]),
     ("culinary", ["Royal Javanese cuisine", "Traditional Solo breakfast", "Street food Galabo", "Batik and culinary tour"]),
     ("shopping", ["Pasar Klewer", "Beteng Trade Center", "Solo Grand Mall", "Batik Kauman"]),
     ("city", ["Alun-alun Kidul", "Benteng Vastenburg", "Taman Balekambang", "Kampung Batik Laweyan"])])]

/-- `destination_tips` of the demo plan endpoint. -/
def demo_destination_tips : List (String × String) :=
  [("Bali", "Sewa motor untuk mobilitas, hindari musim rainy season (Nov-Mar), belajar sedikit bahasa Bali"),
   ("Jakarta", "Gunakan TransJakarta atau MRT, hindari jam rush hour, siapkan cash untuk street food"),
   ("Yogyakarta", "Jalan kaki di Malioboro, coba becak untuk pengalaman lokal, beli batik asli"),
   ("Bandung", "Bawa jaket karena cuaca dingin, coba factory outlet untuk belanja, hindari weekend macet"),
   ("Lombok", "Bawa sunscreen, siapkan cash untuk Gili Islands, respect adat lokal Sasak"),
   ("Surabaya", "Coba kuliner khas Jawa Timur, gunakan Suroboyo Bus, kunjungi kampung heritage"),
   ("Banjarmasin", "Gunakan klotok (perahu tradisional) untuk wisata sungai, coba pasar terapung pagi hari, bawa payung untuk cuaca tropis"),
   ("Medan", "Coba durian Ucok yang terkenal, gunakan becak motor untuk transportasi, kunjungi Danau Toba untuk day trip"),
   ("Makassar", "Nikmati sunset di Pantai Losari, coba coto Makassar untuk sarapan, gunakan pete-pete untuk transportasi lokal"),
   ("Palembang", "Naik kapal wisata Sungai Musi, coba berbagai jenis pempek, kunjungi Pulau Kemaro untuk wisata religi"),
   ("Semarang", "Kunjungi Kota Lama untuk foto vintage, coba lumpia Gang Lombok, gunakan BRT Trans Semarang"),
   ("Solo", "Belanja batik di Pasar Klewer, coba nasi liwet Wongso Lemu, jalan kaki di area Keraton untuk pengalaman budaya")]

/-- `budget_tips` of the demo plan endpoint. -/
def demo_budget_tips : List (String × String) :=
  [("low", "Gunakan transportasi umum, makan di warung lokal, pilih homestay atau guesthouse"),
   ("medium", "Kombinasi transportasi umum dan private, coba restaurant lokal dan hotel bintang 3"),
   ("high", "Private transport, fine dining, hotel bintang 4-5, dan aktivitas premium")]

/-- The `.get(plan.destination, {"general": [...]})` default table. -/
def demo_dest_activities (destination : String) : List (String × List String) :=
  match destination_activities.find? (fun kv => kv.1 = destination) with
  | some kv => kv.2
  | none => [("general", ["Local sightseeing", "Cultural exploration", "Food tasting", "Shopping"])]

/-- The demo's activity selection: `[:3]` per matching interest, else
`[:2]` from every category. -/
def demo_selected_activities (dest : List (String × List String)) (interests : List String) :
    List String :=
  let sel := interests.foldl (fun acc i =>
    match lookupCat dest i with
    | some l => acc ++ l.take 3
    | none => acc) []
  if sel.isEmpty then dest.foldl (fun acc kv => acc ++ kv.2.take 2) [] else sel

/-- Python list slice `l[a:b]` (with `0 ≤ a ≤ b`). -/
def listSlice {α : Type} (l : List α) (a b : Nat) : List α := (l.drop a).take (b - a)

/-- One itinerary line from that day's activity slice. -/
def demo_day_plan (destination : String) (day_activities : List String) : String :=
  match day_activities with
  | [] => "Hari bebas untuk eksplorasi " ++ destination ++ " secara mandiri"
  | [a] => "Full day: " ++ a
  | [a, b] => "Pagi: " ++ a ++ " | Sore: " ++ b
  | [a, b, c] => "Pagi: " ++ a ++ " | Siang: " ++ b ++ " | Sore: " ++ c
  | a :: b :: c :: d :: _ =>
    "Pagi: " ++ a ++ " | Siang: " ++ b ++ " | Sore: " ++ c ++ " | Malam: " ++ d

/-- Python `round(x, 2)` on the values the demo draws (no half-way ties
occur at two-decimal inputs, so the tie-breaking rule is irrelevant). -/
def round2 (q : ℚ) : ℚ := (round (q * 100) : ℤ) / 100

/-- The deterministic part of `create_travel_plan` of demo_api.py: every
response field except the randomized confidence.  `plan.duration = 0`
would raise `ZeroDivisionError` in Python; no claim evaluates it there. -/
def demo_plan_fields (plan : TravelPlan) : List (String × JValue) :=
  let dest := demo_dest_activities plan.destination
  let selected := demo_selected_activities dest plan.interests
  let activities_per_day := max 2 (min 4 (selected.length / plan.duration))
  let itinerary := (List.range plan.duration).map (fun day =>
    let start_idx := day * activities_per_day
    let end_idx := min (start_idx + activities_per_day) selected.length
    demo_day_plan plan.destination (listSlice selected start_idx end_idx))
  let combined_tips :=
    lookupD demo_destination_tips plan.destination "Nikmati pengalaman lokal yang autentik"
      ++ ". " ++ lookupD demo_budget_tips plan.budget "Sesuaikan aktivitas dengan budget Anda" ++ "."
  let base_cost :=
    if plan.budget = "low" then 300000
    else if plan.budget = "medium" then 800000
    else if plan.budget = "high" then 1500000
    else 500000
  let estimated_cost := base_cost * plan.duration
  [("destination", .str plan.destination),
   ("duration", .num plan.duration),
   ("budget", .str plan.budget),
   ("interests", .arr (plan.interests.map .str)),
   ("itinerary", .arr (itinerary.map .str)),
   ("tips", .str combined_tips),
   ("estimated_cost", .str ("Rp " ++ commaFmt estimated_cost))]

/-- The full response dict of `create_travel_plan`: the deterministic
fields above plus the randomized `ai_confidence`. -/
def demo_create_travel_plan (plan : TravelPlan) (rand : ℚ) : JValue :=
  .obj (demo_plan_fields plan ++ [("ai_confidence", .num (round2 rand))])

/-! ## Specification-side accessors -/

/-- The sum of the activity costs inside one `DayPlan` dict. -/
def dayActivitiesCostSum (d : JValue) : ℚ :=
  match getKey d "activities" with
  | some (.arr l) => (l.map (fun a => (getNumKey a "estimated_cost").getD 0)).sum
  | _ => 0

/-- A run of `AIService._baseline_travel_plan` in a world whose random
source would next yield `rand`: the function makes no `random` call (its
body reads only the request and `datetime.now()`), so the draw is simply
never consumed. -/
def AIService_baseline_travel_plan_run (req : TravelRequest) (now : Nat) (rand : ℚ) : JValue :=
  AIService_baseline_travel_plan req now

/-! ## Helper lemmas shared by the claim theorems -/

/-- `AIService.chat_response` always falls through to its baseline dict:
each provider stage raises `AttributeError` (the method is missing) and
the handler moves on. -/
theorem chat_response_eq_baseline (cfg : Config) (message : String) (context : Option JValue) :
    AIService_chat_response cfg message context = AIService_chat_baseline := by
  unfold AIService_chat_response
  cases h : (cfg.useReplicate && cfg.replicateApiToken) <;>
    simp [AIService_watsonx_chat, AIService_huggingface_chat, AIService_replicate_chat, h]

/-- `AIService.analyze_image` always falls through to its baseline dict. -/
theorem analyze_image_eq_baseline (cfg : Config) (imageData : String) :
    AIService_analyze_image cfg imageData = AIService_vision_baseline := by
  unfold AIService_analyze_image
  cases h : (cfg.useReplicate && cfg.replicateApiToken) <;>
    simp [AIService_huggingface_vision, AIService_watsonx_vision, AIService_replicate_vision, h]

/-! ## C10 -/

/-- C10: for every configuration, message, context and image,
`AIService.chat_response` and `AIService.analyze_image` return exactly
their hard-coded baseline dicts: the adapter methods they invoke
(`_watsonx_chat`, `_huggingface_chat`, `_replicate_chat`,
`_huggingface_vision`, `_watsonx_vision`, `_replicate_vision`) are not
defined on `AIService`, so every provider stage raises `AttributeError`,
which the per-stage handler swallows before the chain reaches the
baseline. -/
theorem C10_missing_adapters_always_baseline (cfg : Config) (message : String)
    (context : Option JValue) (imageData : String) :
    AIService_chat_response cfg message context = AIService_chat_baseline
    ∧ AIService_analyze_image cfg imageData = AIService_vision_baseline
    ∧ AIService_watsonx_chat =
        .error "AttributeError: 'AIService' object has no attribute '_watsonx_chat'"
    ∧ AIService_huggingface_chat =
        .error "AttributeError: 'AIService' object has no attribute '_huggingface_chat'"
    ∧ AIService_replicate_chat =
        .error "AttributeError: 'AIService' object has no attribute '_replicate_chat'"
    ∧ AIService_huggingface_vision =
        .error "AttributeError: 'AIService' object has no attribute '_huggingface_vision'"
    ∧ AIService_watsonx_vision =
        .error "AttributeError: 'AIService' object has no attribute '_watsonx_vision'"
    ∧ AIService_replicate_vision =
        .error "AttributeError: 'AIService' object has no attribute '_replicate_vision'" :=
  ⟨chat_response_eq_baseline cfg message context, analyze_image_eq_baseline cfg imageData,
   rfl, rfl, rfl, rfl, rfl, rfl⟩

/-! ## C5 -/

/-- C5 (code bug): the baseline dict returned by `AIService.chat_response`
carries *no* source-provider field at all — `hasKey … "ai_source" = false`
— while its confidence `0.1` does lie in `[0, 1]`, and every sibling
baseline in the repository (travel plan, `ChatService` chat, vision) does
set `ai_source = "baseline"`.  The claim that every orchestration entry
point returns a non-null source provider is therefore broken by this one
baseline dict. -/
theorem C5_chat_baseline_missing_ai_source (cfg : Config) (message m2 : String)
    (context : Option JValue) (req : TravelRequest) (now : Nat) :
    hasKey (AIService_chat_response cfg message context) "ai_source" = false
    ∧ getNumKey (AIService_chat_response cfg message context) "confidence" = some 0.1
    ∧ (0 : ℚ) ≤ 0.1 ∧ (0.1 : ℚ) ≤ 1
    ∧ getStrKey (AIService_baseline_travel_plan req now) "ai_source" = some "baseline"
    ∧ getStrKey (ChatService_baseline_response m2) "ai_source" = some "baseline"
    ∧ getStrKey AIService_vision_baseline "ai_source" = some "baseline" := by
  rw [chat_response_eq_baseline cfg message context]
  refine ⟨rfl, rfl, by norm_num, by norm_num, rfl, rfl, rfl⟩

/-! ## C2 -/

/-- C2: an exception raised inside any provider stage is caught locally
and the chain continues exactly as if the stage had returned `None`; the
orchestrators are total functions into `OrchTrace` (no exception
constructor exists in their result type), so no stage's exception can
reach the caller.  Stated for all three stages of the travel-plan chain
and of the chat chain. -/
theorem C2_stage_exception_is_caught (cfg : Config) (wNet hfNet repNet : AttemptOut)
    (req : TravelRequest) (now : Nat) (message e : String) :
    AIService_generate_travel_plan cfg (.error e) hfNet repNet req now =
      AIService_generate_travel_plan cfg (.ok none) hfNet repNet req now
    ∧ AIService_generate_travel_plan cfg wNet (.error e) repNet req now =
      AIService_generate_travel_plan cfg wNet (.ok none) repNet req now
    ∧ AIService_generate_travel_plan cfg wNet hfNet (.error e) req now =
      AIService_generate_travel_plan cfg wNet hfNet (.ok none) req now
    ∧ ChatService_generate_response cfg (.error e) hfNet repNet message =
      ChatService_generate_response cfg (.ok none) hfNet repNet message
    ∧ ChatService_generate_response cfg wNet (.error e) repNet message =
      ChatService_generate_response cfg wNet (.ok none) repNet message
    ∧ ChatService_generate_response cfg wNet hfNet (.error e) message =
      ChatService_generate_response cfg wNet hfNet (.ok none) message := by
  unfold AIService_generate_travel_plan ChatService_generate_response
  unfold watsonx_travel_plan huggingface_travel_plan replicate_travel_plan
  refine ⟨?_, ?_, ?_, ?_, ?_, ?_⟩ <;>
    cases hw : cfg.watsonxApiKey <;> cases hp : cfg.watsonxProjectId <;>
    cases hh : cfg.hfApiKey <;> cases hu : cfg.useReplicate <;>
    cases ht : cfg.replicateApiToken <;>
    simp [hw, hp, hh, hu, ht]

/-! ## C1 -/

/-- C1: the fallback orchestrators try the providers in the fixed
priority order watsonx → Hugging Face → Replicate (only if enabled) →
baseline.  Whenever an earlier adapter returns a (truthy — every parser
payload is a non-empty object) non-`None` result, that result is tagged
with the stage's provider and returned at once, with no later stage
invoked; a `None` adapter result moves the machine to the next stage,
and after the last provider misses, the baseline terminates the chain. -/
theorem C1_fallback_priority_order (cfg : Config) (wNet hfNet repNet : AttemptOut)
    (req : TravelRequest) (now : Nat) (message : String) :
    (∀ p, watsonx_travel_plan cfg wNet = .ok (some p) → isTruthy p = true →
      AIService_generate_travel_plan cfg wNet hfNet repNet req now =
        ⟨dictSet p "ai_source" (.str "watsonx"), [.watsonx], watsonxCalls cfg⟩)
    ∧ (watsonx_travel_plan cfg wNet = .ok none →
       ∀ p, huggingface_travel_plan cfg hfNet = .ok (some p) → isTruthy p = true →
      AIService_generate_travel_plan cfg wNet hfNet repNet req now =
        ⟨dictSet p "ai_source" (.str "huggingface"), [.watsonx, .huggingface],
         watsonxCalls cfg ++ hfCalls cfg⟩)
    ∧ (watsonx_travel_plan cfg wNet = .ok none →
       huggingface_travel_plan cfg hfNet = .ok none →
       (cfg.useReplicate && cfg.replicateApiToken) = true →
       ∀ p, replicate_travel_plan cfg repNet = .ok (some p) → isTruthy p = true →
      AIService_generate_travel_plan cfg wNet hfNet repNet req now =
        ⟨dictSet p "ai_source" (.str "replicate"), [.watsonx, .huggingface, .replicate],
         watsonxCalls cfg ++ hfCalls cfg ++ replicateCalls cfg⟩)
    ∧ (watsonx_travel_plan cfg wNet = .ok none →
       huggingface_travel_plan cfg hfNet = .ok none →
       ((cfg.useReplicate && cfg.replicateApiToken) = false ∨
        replicate_travel_plan cfg repNet = .ok none) →
      (AIService_generate_travel_plan cfg wNet hfNet repNet req now).result =
        AIService_baseline_travel_plan req now)
    ∧ (∀ p, watsonx_travel_plan cfg wNet = .ok (some p) → isTruthy p = true →
      ChatService_generate_response cfg wNet hfNet repNet message =
        ⟨dictSet p "ai_source" (.str "watsonx"), [.watsonx], watsonxCalls cfg⟩)
    ∧ (watsonx_travel_plan cfg wNet = .ok none →
       huggingface_travel_plan cfg hfNet = .ok none →
       ((cfg.useReplicate && cfg.replicateApiToken) = false ∨
        replicate_travel_plan cfg repNet = .ok none) →
      (ChatService_generate_response cfg wNet hfNet repNet message).result =
        ChatService_baseline_response message) := by
  refine ⟨?_, ?_, ?_, ?_, ?_, ?_⟩
  · intro p hw ht
    unfold AIService_generate_travel_plan
    rw [hw]
    simp [ht]
  · intro hw p hh ht
    unfold AIService_generate_travel_plan
    rw [hw, hh]
    simp [ht]
  · intro hw hh hgate p hr ht
    unfold AIService_generate_travel_plan
    rw [hw, hh, hgate, hr]
    simp [ht]
  · intro hw hh hrep
    unfold AIService_generate_travel_plan
    rw [hw, hh]
    rcases hrep with hgate | hr
    · simp [hgate]
    · cases hgate : (cfg.useReplicate && cfg.replicateApiToken) <;> simp [hgate, hr]
  · intro p hw ht
    unfold ChatService_generate_response
    rw [hw]
    simp [ht]
  · intro hw hh hrep
    unfold ChatService_generate_response
    rw [hw, hh]
    rcases hrep with hgate | hr
    · simp [hgate]
    · cases hgate : (cfg.useReplicate && cfg.replicateApiToken) <;> simp [hgate, hr]

/-- Witness for C1 at concrete inputs: a fully configured chain whose
watsonx adapter returns a one-field object short-circuits to the tagged
result with only the watsonx stage invoked, and a chain whose three
adapters all miss ends at the baseline plan. -/
theorem C1_fallback_priority_order_witness :
    AIService_generate_travel_plan ⟨true, true, true, true, true⟩
        (.ok (some (.obj [("title", .str "t")]))) (.ok none) (.ok none)
        ⟨"Bandung", 3, "sedang", []⟩ 0 =
      ⟨dictSet (.obj [("title", .str "t")]) "ai_source" (.str "watsonx"), [.watsonx],
       watsonxCalls ⟨true, true, true, true, true⟩⟩
    ∧ (AIService_generate_travel_plan ⟨true, true, true, true, true⟩
        (.ok none) (.ok none) (.ok none) ⟨"Bandung", 3, "sedang", []⟩ 0).result =
      AIService_baseline_travel_plan ⟨"Bandung", 3, "sedang", []⟩ 0 :=
  ⟨(C1_fallback_priority_order ⟨true, true, true, true, true⟩
      (.ok (some (.obj [("title", .str "t")]))) (.ok none) (.ok none)
      ⟨"Bandung", 3, "sedang", []⟩ 0 "m").1 (.obj [("title", .str "t")]) rfl rfl,
   (C1_fallback_priority_order ⟨true, true, true, true, true⟩
      (.ok none) (.ok none) (.ok none)
      ⟨"Bandung", 3, "sedang", []⟩ 0 "m").2.2.2.1 rfl rfl (Or.inr rfl)⟩

/-! ## C4 -/

/-- C4: when every provider is unconfigured (missing watsonx key or
project id, missing HF key, and the Replicate gate
`USE_REPLICATE and REPLICATE_API_TOKEN` off), each invoked adapter
returns `None` immediately, no network call is issued at all, and the
orchestration returns the baseline plan, whose source-provider tag is
`"baseline"`. -/
theorem C4_all_unconfigured_yields_baseline (cfg : Config) (wNet hfNet repNet : AttemptOut)
    (req : TravelRequest) (now : Nat)
    (hw : (cfg.watsonxApiKey && cfg.watsonxProjectId) = false)
    (hh : cfg.hfApiKey = false)
    (hr : (cfg.useReplicate && cfg.replicateApiToken) = false) :
    watsonx_travel_plan cfg wNet = .ok none
    ∧ huggingface_travel_plan cfg hfNet = .ok none
    ∧ AIService_generate_travel_plan cfg wNet hfNet repNet req now =
        ⟨AIService_baseline_travel_plan req now, [.watsonx, .huggingface], []⟩
    ∧ getStrKey (AIService_baseline_travel_plan req now) "ai_source" = some "baseline" := by
  have hwn : watsonx_travel_plan cfg wNet = .ok none := by
    unfold watsonx_travel_plan; rw [hw]; rfl
  have hhn : huggingface_travel_plan cfg hfNet = .ok none := by
    unfold huggingface_travel_plan; rw [hh]; rfl
  refine ⟨hwn, hhn, ?_, rfl⟩
  unfold AIService_generate_travel_plan
  rw [hwn, hhn, hr]
  simp [watsonxCalls, hfCalls, hw, hh]

/-- Witness for C4: the all-empty configuration with arbitrary adapter
bodies ends at the baseline plan with no network call. -/
theorem C4_all_unconfigured_yields_baseline_witness :
    AIService_generate_travel_plan ⟨false, false, false, false, false⟩
        (.error "boom") (.error "boom") (.error "boom") ⟨"Bandung", 3, "sedang", []⟩ 0 =
      ⟨AIService_baseline_travel_plan ⟨"Bandung", 3, "sedang", []⟩ 0,
       [.watsonx, .huggingface], []⟩
    ∧ getStrKey (AIService_baseline_travel_plan ⟨"Bandung", 3, "sedang", []⟩ 0) "ai_source" =
        some "baseline" :=
  ⟨(C4_all_unconfigured_yields_baseline ⟨false, false, false, false, false⟩
      (.error "boom") (.error "boom") (.error "boom") ⟨"Bandung", 3, "sedang", []⟩ 0
      rfl rfl rfl).2.2.1,
   (C4_all_unconfigured_yields_baseline ⟨false, false, false, false, false⟩
      (.error "boom") (.error "boom") (.error "boom") ⟨"Bandung", 3, "sedang", []⟩ 0
      rfl rfl rfl).2.2.2⟩

/-! ## C6 -/

/-- C6 counterexample: the baseline travel-plan synthesizer's confidence
is `0.6`, which exceeds the claimed `0.1` ceiling. -/
theorem C6_counterexample_baseline_plan_confidence :
    getNumKey (AIService_baseline_travel_plan ⟨"Bandung", 3, "sedang", []⟩ 0) "confidence" =
      some 0.6
    ∧ ¬ ((0.6 : ℚ) ≤ 0.1) :=
  ⟨rfl, by norm_num⟩

/-- C6 (amended): the chat and vision baselines do stay at the `0.1`
ceiling, but the baseline travel-plan synthesizer reports `0.6` and the
enhanced-fallback synthesizer reports `0.97`, both exceeding `0.1`. -/
theorem C6_baseline_confidence_constants (req : TravelRequest) (now : Nat) (message : String)
    (dest budg : String) (dur : Nat) (ints : List String) :
    getNumKey (AIService_baseline_travel_plan req now) "confidence" = some 0.6
    ∧ getNumKey AIService_chat_baseline "confidence" = some 0.1
    ∧ getNumKey (ChatService_baseline_response message) "confidence" = some 0.1
    ∧ getNumKey AIService_vision_baseline "confidence" = some 0.1
    ∧ (0.1 : ℚ) ≤ 0.1
    ∧ ¬ ((0.6 : ℚ) ≤ 0.1)
    ∧ ¬ ((0.97 : ℚ) ≤ 0.1)
    ∧ (∀ plan, get_enhanced_fallback_plan dest dur budg ints = some plan →
        getNumKey plan "ai_confidence" = some 0.97) := by
  refine ⟨rfl, rfl, rfl, rfl, le_refl _, by norm_num, by norm_num, ?_⟩
  intro plan h
  unfold get_enhanced_fallback_plan at h
  rcases Option.map_eq_some'.mp h with ⟨sel, _, rfl⟩
  rfl

/-- Witness for C6 (amended): a concrete enhanced-fallback run reports
confidence `0.97`. -/
theorem C6_baseline_confidence_constants_witness :
    getNumKey ((get_enhanced_fallback_plan "X" 0 "low" []).getD .null) "ai_confidence" =
      some 0.97 :=
  (C6_baseline_confidence_constants ⟨"Bandung", 3, "sedang", []⟩ 0 "m" "X" "low" 0 []).2.2.2.2.2.2.2
    ((get_enhanced_fallback_plan "X" 0 "low" []).getD .null) rfl

/-! ## C7 -/

/-- C7 counterexample: for `duration = 3, budget = "sedang"` the first
day's subtotal is `300000` but the day's activities cost `200000` in
total — the subtotal does not equal the sum of the contained activity
costs (the source fixes both numbers as independent per-tier bands). -/
theorem C7_counterexample_day_subtotal :
    getKey (AIService_baseline_travel_plan ⟨"Bandung", 3, "sedang", []⟩ 0) "daily_routes" =
      some (.arr ((List.range' 1 3).map (baseline_day "Bandung" "sedang" 0)))
    ∧ (List.range' 1 3).map (baseline_day "Bandung" "sedang" 0) =
        [baseline_day "Bandung" "sedang" 0 1, baseline_day "Bandung" "sedang" 0 2,
         baseline_day "Bandung" "sedang" 0 3]
    ∧ getNumKey (baseline_day "Bandung" "sedang" 0 1) "estimated_cost" = some 300000
    ∧ dayActivitiesCostSum (baseline_day "Bandung" "sedang" 0 1) = 200000
    ∧ (300000 : ℚ) ≠ 200000 := by
  refine ⟨rfl, rfl, rfl, ?_, by norm_num⟩
  simp [dayActivitiesCostSum, baseline_day, getKey, getNumKey, assocGet,
    baseline_activity_cost]

/-- C7 (amended): for every request with `duration ≥ 1`, the baseline
synthesizer emits exactly `duration` day plans with contiguous day
indices `1..duration`; the four cost-estimate components are the fixed
40/30/20/10 percent splits of the total and sum to it exactly; and each
day's subtotal is the fixed per-tier daily band, which never equals the
day's activity-cost sum (the per-tier activity band). -/
theorem C7_baseline_plan_shape (req : TravelRequest) (now : Nat)
    (h1 : 1 ≤ req.duration_days) :
    getKey (AIService_baseline_travel_plan req now) "daily_routes" =
      some (.arr (baseline_daily_routes req.destination req.budget_range now req.duration_days))
    ∧ (baseline_daily_routes req.destination req.budget_range now req.duration_days).length =
        req.duration_days
    ∧ (∀ i, i < req.duration_days →
        getNumKey ((baseline_daily_routes req.destination req.budget_range now
            req.duration_days).getD i .null) "day" = some ((i + 1 : Nat) : ℚ)
        ∧ getNumKey ((baseline_daily_routes req.destination req.budget_range now
            req.duration_days).getD i .null) "estimated_cost" =
              some (baseline_day_cost req.budget_range)
        ∧ dayActivitiesCostSum ((baseline_daily_routes req.destination req.budget_range now
            req.duration_days).getD i .null) = baseline_activity_cost req.budget_range)
    ∧ getKey (AIService_baseline_travel_plan req now) "cost_estimate" =
        some (.obj [
          ("accommodation", .num (baseline_total_cost req.destination req.budget_range now
              req.duration_days * 0.4)),
          ("food", .num (baseline_total_cost req.destination req.budget_range now
              req.duration_days * 0.3)),
          ("transport", .num (baseline_total_cost req.destination req.budget_range now
              req.duration_days * 0.2)),
          ("activities", .num (baseline_total_cost req.destination req.budget_range now
              req.duration_days * 0.1)),
          ("total", .num (baseline_total_cost req.destination req.budget_range now
              req.duration_days)),
          ("currency", .str "IDR")])
    ∧ (baseline_total_cost req.destination req.budget_range now req.duration_days * 0.4
        + baseline_total_cost req.destination req.budget_range now req.duration_days * 0.3
        + baseline_total_cost req.destination req.budget_range now req.duration_days * 0.2
        + baseline_total_cost req.destination req.budget_range now req.duration_days * 0.1
        = baseline_total_cost req.destination req.budget_range now req.duration_days)
    ∧ baseline_day_cost req.budget_range ≠ baseline_activity_cost req.budget_range := by
  refine ⟨rfl, by simp [baseline_daily_routes], ?_, rfl, by ring, ?_⟩
  · intro i hi
    have hl : i < (baseline_daily_routes req.destination req.budget_range now
        req.duration_days).length := by simpa [baseline_daily_routes] using hi
    have hget : (baseline_daily_routes req.destination req.budget_range now
        req.duration_days).getD i .null =
        baseline_day req.destination req.budget_range now (1 + i) := by
      rw [List.getD_eq_getElem _ _ hl]
      simp [baseline_daily_routes]
    rw [hget]
    refine ⟨?_, ?_, ?_⟩
    · simp [baseline_day, getNumKey, getKey, assocGet, Nat.add_comm]
    · simp [baseline_day, getNumKey, getKey, assocGet]
    · simp [dayActivitiesCostSum, baseline_day, getKey, getNumKey, assocGet]
  · unfold baseline_day_cost baseline_activity_cost
    split_ifs <;> norm_num

/-- Witness for C7 (amended), at `destination = "Bandung"`,
`duration = 3`, `budget = "sedang"`: three day plans. -/
theorem C7_baseline_plan_shape_witness :
    (baseline_daily_routes "Bandung" "sedang" 0 3).length = 3 :=
  (C7_baseline_plan_shape ⟨"Bandung", 3, "sedang", []⟩ 0 (by norm_num)).2.1

/-! ## C8 -/

/-- Looking a key up in a concatenation inspects the first list first. -/
theorem assocGet_append (k : String) (l1 l2 : List (String × JValue)) :
    assocGet k (l1 ++ l2) =
      match assocGet k l1 with
      | some v => some v
      | none => assocGet k l2 := by
  induction l1 with
  | nil => rfl
  | cons kv rest ih =>
    obtain ⟨k', v'⟩ := kv
    by_cases hk : k' = k <;> simp [assocGet, hk, ih]

/-- A key absent from an association list looks up to `none`. -/
theorem assocGet_eq_none_of_not_mem (k : String) (l : List (String × JValue))
    (h : (l.map Prod.fst).contains k = false) : assocGet k l = none := by
  induction l with
  | nil => rfl
  | cons kv rest ih =>
    obtain ⟨k', v'⟩ := kv
    simp only [List.map_cons, List.contains_cons, Bool.or_eq_false_iff] at h
    have hk : k' ≠ k := by
      intro he
      simp [he] at h
    simp [assocGet, hk, ih h.2]

/-- The deterministic field keys of the demo response. -/
theorem demo_plan_fields_keys (plan : TravelPlan) :
    (demo_plan_fields plan).map Prod.fst =
      ["destination", "duration", "budget", "interests", "itinerary", "tips",
       "estimated_cost"] := rfl

/-- The demo response's `ai_confidence` field is exactly the rounded
random draw. -/
theorem demo_ai_confidence_field (plan : TravelPlan) (r : ℚ) :
    getNumKey (demo_create_travel_plan plan r) "ai_confidence" = some (round2 r) := by
  have hnone : assocGet "ai_confidence" (demo_plan_fields plan) = none := by
    refine assocGet_eq_none_of_not_mem _ _ ?_
    rw [demo_plan_fields_keys]
    decide
  simp [getNumKey, getKey, demo_create_travel_plan, assocGet_append, hnone, assocGet]

/-- Every demo response field other than `ai_confidence` is independent
of the random draw. -/
theorem demo_getKey_indep (plan : TravelPlan) (r1 r2 : ℚ) (k : String)
    (hk : k ≠ "ai_confidence") :
    getKey (demo_create_travel_plan plan r1) k = getKey (demo_create_travel_plan plan r2) k := by
  have hne : ¬ ("ai_confidence" = k) := fun he => hk he.symm
  simp only [demo_create_travel_plan, getKey, assocGet_append]
  cases hpre : assocGet k (demo_plan_fields plan) with
  | some v => simp
  | none => simp [assocGet, hne]

/-- C8 counterexample: `0.88` and `0.96` are both values
`random.uniform(0.88, 0.96)` can draw, and two runs of the demo variant of
`create_travel_plan` on the identical request that differ only in that
draw produce different outputs — the synthesizer is not a pure function
of its input. -/
theorem C8_counterexample_random_confidence :
    (0.88 : ℚ) ∈ Set.Icc (0.88 : ℚ) 0.96
    ∧ (0.96 : ℚ) ∈ Set.Icc (0.88 : ℚ) 0.96
    ∧ demo_create_travel_plan ⟨"X", 1, "medium", []⟩ 0.88 ≠
        demo_create_travel_plan ⟨"X", 1, "medium", []⟩ 0.96 := by
  refine ⟨by norm_num, by norm_num, ?_⟩
  intro h
  have h2 := congrArg (fun v => getNumKey v "ai_confidence") h
  simp only [demo_ai_confidence_field, Option.some.injEq] at h2
  norm_num [round2, round_eq] at h2

/-- C8 (amended): the backend baseline synthesizer
`_baseline_travel_plan` is deterministic — it draws no randomness, so a
run consumes no part of the random source and identical input and
current date give identical output; the demo variant of `create_travel_plan` is
deterministic in everything except its `ai_confidence` field, which is
the rounded `random.uniform(0.88, 0.96)` draw. -/
theorem C8_baseline_synthesizer_determinism (req : TravelRequest) (now : Nat)
    (plan : TravelPlan) (r1 r2 : ℚ) :
    AIService_baseline_travel_plan_run req now r1 = AIService_baseline_travel_plan_run req now r2
    ∧ (∀ k, k ≠ "ai_confidence" →
        getKey (demo_create_travel_plan plan r1) k = getKey (demo_create_travel_plan plan r2) k)
    ∧ getNumKey (demo_create_travel_plan plan r1) "ai_confidence" = some (round2 r1) :=
  ⟨rfl, fun k hk => demo_getKey_indep plan r1 r2 k hk, demo_ai_confidence_field plan r1⟩

/-- Witness for C8 (amended): concrete runs agree on the `tips` field
across different draws, and the baseline synthesizer run is untouched by
the draw. -/
theorem C8_baseline_synthesizer_determinism_witness :
    AIService_baseline_travel_plan_run ⟨"Bandung", 3, "sedang", []⟩ 0 0.88 =
      AIService_baseline_travel_plan_run ⟨"Bandung", 3, "sedang", []⟩ 0 0.96
    ∧ getKey (demo_create_travel_plan ⟨"X", 1, "medium", []⟩ 0.88) "tips" =
        getKey (demo_create_travel_plan ⟨"X", 1, "medium", []⟩ 0.96) "tips" :=
  ⟨(C8_baseline_synthesizer_determinism ⟨"Bandung", 3, "sedang", []⟩ 0
      ⟨"X", 1, "medium", []⟩ 0.88 0.96).1,
   (C8_baseline_synthesizer_determinism ⟨"Bandung", 3, "sedang", []⟩ 0
      ⟨"X", 1, "medium", []⟩ 0.88 0.96).2.1 "tips" (by decide)⟩

/-! ## C9 -/

/-- C9: on the free-text message
`"Ke Samarinda 4 hari budget 6 juta petualangan dan alam"`, the
`/chat-plan` extractors yield duration `4`, budget tier `"high"`
(the captured `6 juta` exceeds the `4 juta` threshold), destination
`"Samarinda"`, and an interest set containing the `adventure` and
`nature` tags. -/
theorem C9_samarinda_extraction :
    extract_destination
        (pyLower (pyChars "Ke Samarinda 4 hari budget 6 juta petualangan dan alam"))
        (pyChars "Ke Samarinda 4 hari budget 6 juta petualangan dan alam") = "Samarinda"
    ∧ extract_duration
        (pyLower (pyChars "Ke Samarinda 4 hari budget 6 juta petualangan dan alam")) = 4
    ∧ findJuta (pyLower (pyChars "Ke Samarinda 4 hari budget 6 juta petualangan dan alam")) =
        some (6, none)
    ∧ jutaAmount (6, none) = 6
    ∧ ¬ ((6 : ℚ) ≤ 4)
    ∧ extract_budget
        (pyLower (pyChars "Ke Samarinda 4 hari budget 6 juta petualangan dan alam")) = "high"
    ∧ "adventure" ∈ extract_interests
        (pyLower (pyChars "Ke Samarinda 4 hari budget 6 juta petualangan dan alam"))
    ∧ "nature" ∈ extract_interests
        (pyLower (pyChars "Ke Samarinda 4 hari budget 6 juta petualangan dan alam")) := by
  refine ⟨by decide, by decide, by decide, by norm_num [jutaAmount], by norm_num, ?_,
    by decide, by decide⟩
  have hj : findJuta (pyLower (pyChars "Ke Samarinda 4 hari budget 6 juta petualangan dan alam")) =
      some (6, none) := by decide
  unfold extract_budget
  rw [hj]
  norm_num [jutaAmount]

/-! ## C3 -/

/-- `str.find` returns `-1` or a non-negative index. -/
theorem pyFind_neg_or_nonneg (ch : Char) (cs : List Char) :
    pyFind ch cs = -1 ∨ 0 ≤ pyFind ch cs := by
  induction cs with
  | nil => exact Or.inl rfl
  | cons c rest ih =>
    simp only [pyFind]
    by_cases hc : c = ch
    · rw [if_pos hc]
      right
      omega
    · rw [if_neg hc]
      rcases eq_or_ne (pyFind ch rest) (-1) with he | he
      · rw [if_pos he]
        left
        rfl
      · rw [if_neg he]
        have := ih.resolve_left he
        right
        omega

/-- A found index points at the character: dropping up to it exposes it. -/
theorem pyFind_drop (ch : Char) (cs : List Char) (n : Nat) (h : pyFind ch cs = (n : Int)) :
    ∃ rest, cs.drop n = ch :: rest := by
  induction cs generalizing n with
  | nil =>
    exfalso
    simp only [pyFind] at h
    omega
  | cons c rest ih =>
    simp only [pyFind] at h
    by_cases hc : c = ch
    · rw [if_pos hc] at h
      have : n = 0 := by omega
      subst this
      exact ⟨rest, by simp [hc]⟩
    · rw [if_neg hc] at h
      rcases eq_or_ne (pyFind ch rest) (-1) with he | he
      · rw [if_pos he] at h
        exact absurd h (by omega)
      · rw [if_neg he] at h
        have hr := (pyFind_neg_or_nonneg ch rest).resolve_left he
        have hm : pyFind ch rest = ((pyFind ch rest).toNat : Int) := by omega
        obtain ⟨r2, hr2⟩ := ih (pyFind ch rest).toNat hm
        have hn : n = (pyFind ch rest).toNat + 1 := by omega
        subst hn
        exact ⟨r2, by simpa using hr2⟩

/-- A `parseCore` value job on text starting with `{` can only produce a
decoded object. -/
theorem parseCore_brace_obj (fuel : Nat) (rest : List Char) (out : POut) (r : List Char)
    (h : parseCore fuel .val ('{' :: rest) = some (out, r)) :
    ∃ l, out = POut.v (JValue.obj l) := by
  cases fuel with
  | zero => simp [parseCore] at h
  | succ f =>
    have hskip : skipWs ('{' :: rest) = '{' :: rest := by
      simp [skipWs, isJsonWs]
    rw [show parseCore (f + 1) .val ('{' :: rest) =
        (match skipWs rest with
         | '}' :: r2 => some (.v (.obj []), r2)
         | _ =>
           match parseCore f .objMembers rest with
           | some (.mems l, r2) => some (.v (.obj l), r2)
           | _ => none) from by rw [parseCore, hskip]; rfl] at h
    split at h
    · simp only [Option.some.injEq, Prod.mk.injEq] at h
      exact ⟨[], h.1.symm⟩
    · split at h
      · rename_i l r2 _
        simp only [Option.some.injEq, Prod.mk.injEq] at h
        exact ⟨l, h.1.symm⟩
      · exact absurd h (by simp)

/-- `json.loads` on text whose first character is `{` yields an object
whenever it succeeds. -/
theorem json_loads_brace_obj (t : List Char) (v : JValue)
    (h : json_loads (String.mk ('{' :: t)) = some v) : ∃ l, v = JValue.obj l := by
  unfold json_loads at h
  have hchars : pyChars (String.mk ('{' :: t)) = '{' :: t := rfl
  rw [hchars] at h
  cases hp : parseCore ((String.mk ('{' :: t)).length + 2) .val ('{' :: t) with
  | none => rw [hp] at h; simp at h
  | some pr =>
    obtain ⟨out, rest⟩ := pr
    obtain ⟨l, rfl⟩ := parseCore_brace_obj _ _ _ _ hp
    rw [hp] at h
    have h2 : (if (skipWs rest).isEmpty = true then some (JValue.obj l) else none) = some v := h
    split at h2
    · exact ⟨l, ((Option.some.injEq .. ).mp h2).symm⟩
    · simp at h2

/-- C3: the travel-plan response parser returns `None` whenever the raw
text has no balanced `{...}` span (no `{`, no `}`, or the last `}` not
after the first `{`), whenever the sliced span fails to decode, and
whenever the decoded value misses a required field; and every value it
does return is a decoded object containing all five required fields
(`title`, `destination`, `duration_days`, `daily_routes`,
`cost_estimate`) — in particular a successful decode of a non-object can
never be returned. -/
theorem C3_parse_travel_response_spec (s : String) :
    (pyFind '{' (pyChars s) = -1 ∨
        pyRFind '}' (pyChars s) + 1 ≤ pyFind '{' (pyChars s) →
      parse_travel_response s = none)
    ∧ (json_loads (String.mk (pySlice (pyChars s) (pyFind '{' (pyChars s)).toNat
          (pyRFind '}' (pyChars s) + 1).toNat)) = none → parse_travel_response s = none)
    ∧ (∀ v, json_loads (String.mk (pySlice (pyChars s) (pyFind '{' (pyChars s)).toNat
          (pyRFind '}' (pyChars s) + 1).toNat)) = some v →
        required_fields.all (fun field => fieldIn field v) = false →
        parse_travel_response s = none)
    ∧ (∀ v, parse_travel_response s = some v →
        (∃ fields, v = JValue.obj fields)
        ∧ ∀ field ∈ required_fields, fieldIn field v = true) := by
  refine ⟨?_, ?_, ?_, ?_⟩
  · intro h
    unfold parse_travel_response
    have hneg : ¬(pyFind '{' (pyChars s) ≠ -1 ∧
        pyRFind '}' (pyChars s) + 1 > pyFind '{' (pyChars s)) := by
      rcases h with h | h
      · simp [h]
      · rintro ⟨h1, h2⟩; omega
    rw [if_neg hneg]
  · intro h
    simp only [parse_travel_response]
    split
    · rw [h]
    · rfl
  · intro v hj hall
    simp only [parse_travel_response]
    split
    · rw [hj]
      show (if (required_fields.all fun field => fieldIn field v) = true
          then some v else none) = none
      rw [hall]
      rfl
    · rfl
  · intro v hp
    simp only [parse_travel_response] at hp
    split at hp
    · rename_i hc
      obtain ⟨hne, hgt⟩ := hc
      cases hj : json_loads (String.mk (pySlice (pyChars s) (pyFind '{' (pyChars s)).toNat
          (pyRFind '}' (pyChars s) + 1).toNat)) with
      | none =>
        rw [hj] at hp
        exact absurd (show (none : Option JValue) = some v from hp) (by simp)
      | some parsed =>
        rw [hj] at hp
        have hp2 : (if (required_fields.all fun field => fieldIn field parsed) = true
            then some parsed else none) = some v := hp
        cases hall : required_fields.all (fun field => fieldIn field parsed) with
        | false =>
          rw [hall] at hp2
          simp at hp2
        | true =>
          rw [hall] at hp2
          simp only [if_true] at hp2
          obtain rfl : parsed = v := (Option.some.injEq .. ).mp hp2
          constructor
          · -- the slice starts at the first `{`, so the decode is an object
            have hstart := (pyFind_neg_or_nonneg '{' (pyChars s)).resolve_left hne
            obtain ⟨rest, hdrop⟩ := pyFind_drop '{' (pyChars s) (pyFind '{' (pyChars s)).toNat
              (by omega)
            have htk : (pyRFind '}' (pyChars s) + 1).toNat - (pyFind '{' (pyChars s)).toNat =
                ((pyRFind '}' (pyChars s) + 1).toNat - (pyFind '{' (pyChars s)).toNat - 1) + 1 := by
              omega
            have hslice : pySlice (pyChars s) (pyFind '{' (pyChars s)).toNat
                (pyRFind '}' (pyChars s) + 1).toNat =
                '{' :: rest.take ((pyRFind '}' (pyChars s) + 1).toNat -
                  (pyFind '{' (pyChars s)).toNat - 1) := by
              unfold pySlice
              rw [hdrop, htk, List.take_succ_cons]
              simp
            rw [hslice] at hj
            exact json_loads_brace_obj _ _ hj
          · intro field hf
            exact List.all_eq_true.mp hall field hf
    · simp at hp

set_option maxRecDepth 8192 in
set_option maxHeartbeats 1000000 in
/-- Witness for C3: a concrete run of each branch — no-span text and a
non-decodable span give `None`, a span missing required fields gives
`None`, and a good span decodes to an object carrying all five required
fields. -/
theorem C3_parse_travel_response_spec_witness :
    parse_travel_response "no braces at all" = none
    ∧ parse_travel_response "\x7b not json \x7d" = none
    ∧ parse_travel_response "\x7b\"title\": 1\x7d" = none
    ∧ (∃ fields, (parse_travel_response
        "x \x7b\"title\": 1, \"destination\": 2, \"duration_days\": 3, \"daily_routes\": 4, \"cost_estimate\": 5\x7d y").getD .null = JValue.obj fields)
    ∧ (∀ field ∈ required_fields, fieldIn field ((parse_travel_response
        "x \x7b\"title\": 1, \"destination\": 2, \"duration_days\": 3, \"daily_routes\": 4, \"cost_estimate\": 5\x7d y").getD .null) = true) :=
  ⟨(C3_parse_travel_response_spec "no braces at all").1 (Or.inl (by decide)),
   (C3_parse_travel_response_spec "\x7b not json \x7d").2.1 rfl,
   (C3_parse_travel_response_spec "\x7b\"title\": 1\x7d").2.2.1
     ((json_loads (String.mk (pySlice (pyChars "\x7b\"title\": 1\x7d")
        (pyFind '{' (pyChars "\x7b\"title\": 1\x7d")).toNat
        (pyRFind '}' (pyChars "\x7b\"title\": 1\x7d") + 1).toNat))).getD .null) (by rfl) (by decide),
   ((C3_parse_travel_response_spec
      "x \x7b\"title\": 1, \"destination\": 2, \"duration_days\": 3, \"daily_routes\": 4, \"cost_estimate\": 5\x7d y").2.2.2
      ((parse_travel_response
        "x \x7b\"title\": 1, \"destination\": 2, \"duration_days\": 3, \"daily_routes\": 4, \"cost_estimate\": 5\x7d y").getD .null)
      (by rfl)).1,
   ((C3_parse_travel_response_spec
      "x \x7b\"title\": 1, \"destination\": 2, \"duration_days\": 3, \"daily_routes\": 4, \"cost_estimate\": 5\x7d y").2.2.2
      ((parse_travel_response
        "x \x7b\"title\": 1, \"destination\": 2, \"duration_days\": 3, \"daily_routes\": 4, \"cost_estimate\": 5\x7d y").getD .null)
      (by rfl)).2⟩
